import Mathlib

/-!
Verification of the gait-analysis core of the CVAPed mobile backend.

The Python sources embedded here are:
  * backend/gait-analysis/problem_detector.py  (GaitProblemDetector)
  * backend/gait-analysis/gait_processor.py    (GaitProcessor)
  * backend/gait-analysis/data_validator.py    (validate_sensor_data)

Modelling conventions:
  * Python floats are modelled as exact rationals (ℚ).
  * External numeric kernels that are not part of the repository
    (scipy.stats.norm.cdf, scipy butter/filtfilt, numpy sqrt) are taken as
    function parameters; every structural decision of the repository code
    (guards, branches, clamps, fallbacks, state updates) is embedded exactly.
  * scipy.signal.find_peaks is given an executable model following its
    documented behaviour (local maxima, minimal distance selection by
    decreasing height, prominence filter), since the repository relies on
    its interface contract.
  * Python dicts with optional keys become structures with Option fields;
    a JSON-like value type models the dynamically typed validator input.
-/

/-! ### Basic numeric helpers (numpy mean / diff / variance, Python round) -/

/-- Mean of a list of rationals (`np.mean`); 0 on the empty list (numpy
would give NaN there; every use below is guarded by a length check). -/
def listMean (xs : List ℚ) : ℚ := xs.sum / xs.length

/-- Consecutive differences (`np.diff`). -/
def listDiff : List ℚ → List ℚ
  | [] => []
  | [_] => []
  | a :: b :: rest => (b - a) :: listDiff (b :: rest)

/-- Population variance (`np.var`, i.e. the square of `np.std`). -/
def listVar (xs : List ℚ) : ℚ :=
  listMean (xs.map (fun x => (x - listMean xs) * (x - listMean xs)))

/-- Round-half-to-even to an integer, as Python's builtin `round` and the
format specifiers do on exact values. -/
def roundHalfEven (x : ℚ) : ℤ :=
  let f := ⌊x⌋
  let r := x - f
  if r < 1/2 then f
  else if 1/2 < r then f + 1
  else if f % 2 = 0 then f else f + 1

/-- Python `round(x, n)` on an exact rational value. -/
def pyRound (x : ℚ) (n : ℕ) : ℚ := (roundHalfEven (x * 10 ^ n) : ℚ) / 10 ^ n

/-- Python `int(x)`: truncation toward zero. -/
def truncInt (x : ℚ) : ℤ := if 0 ≤ x then ⌊x⌋ else ⌈x⌉

/-- Left-pad a numeral string with zeros to length `n`. -/
def padZeros (s : String) (n : ℕ) : String :=
  String.mk (List.replicate (n - s.length) '0') ++ s

/-- Python format specifier `:.nf` on an exact rational value. -/
def fmtFixed (x : ℚ) (n : ℕ) : String :=
  let m := roundHalfEven (x * 10 ^ n)
  let a := m.natAbs
  (if m < 0 then "-" else "") ++ toString (a / 10 ^ n) ++
    (if n = 0 then "" else "." ++ padZeros (toString (a % 10 ^ n)) n)

/-! ### problem_detector.py — data model -/

/-- One entry of the baselines JSON, restricted to the keys the detector
reads (`mean`, `std`, `p5`, `p25`, `p75`; the file also carries other
percentiles, `min`, `max`, `n`, `unit`, which no code path touches). -/
structure Baseline where
  mean : ℚ
  std : ℚ
  p5 : ℚ
  p25 : ℚ
  p75 : ℚ
deriving DecidableEq

/-- The finding dict built by the `_check_*` methods.  `percentile` is an
`Option` because the stability and step-regularity checks build their dicts
without that key. -/
structure ProblemRecord where
  problem : String
  severity : String
  category : String
  current_value : ℚ
  normal_range : String
  percentile : Option ℤ
  description : String
  impact : String
  clinical_significance : String
  recommendations : List String
deriving DecidableEq

/-- The metrics dict passed to `detect_problems`; every key optional. -/
structure UserMetrics where
  step_count : Option ℚ
  cadence : Option ℚ
  stride_length : Option ℚ
  velocity : Option ℚ
  gait_symmetry : Option ℚ
  stability_score : Option ℚ
  step_regularity : Option ℚ
  vertical_oscillation : Option ℚ
deriving DecidableEq

/-- The loaded baselines map, restricted to the five keys
`detect_problems` looks up. -/
structure Baselines where
  cadence : Option Baseline
  gait_symmetry : Option Baseline
  stride_length_estimate : Option Baseline
  velocity_estimate : Option Baseline
  stride_variability : Option Baseline
deriving DecidableEq

/-! ### problem_detector.py — detection -/

/-- `GaitProblemDetector._calculate_percentile`.  The standard-normal CDF
(`scipy.stats.norm.cdf`) is the parameter `cdf`. -/
def calculate_percentile (cdf : ℚ → ℚ) (value : ℚ) (b : Baseline) : ℤ :=
  let z := if b.std > 0 then (value - b.mean) / b.std else 0
  let percentile := cdf z * 100
  max 1 (min 99 (truncInt percentile))

/-- `GaitProblemDetector._check_cadence`. -/
def check_cadence (cdf : ℚ → ℚ) (cadence : ℚ) (b : Baseline) : List ProblemRecord :=
  if cadence < b.p5 then
    let percentile := calculate_percentile cdf cadence b
    [{ problem := "slow_cadence"
       severity := "severe"
       category := "Speed & Rhythm"
       current_value := pyRound cadence 1
       normal_range := fmtFixed b.p25 1 ++ " - " ++ fmtFixed b.p75 1
       percentile := some percentile
       description := "Your walking pace (" ++ fmtFixed cadence 1 ++
         " steps/min) is significantly slower than normal (below " ++
         toString percentile ++ "th percentile)."
       impact := "Severely reduced walking speed affects daily activities, community mobility, and crossing streets safely."
       clinical_significance := "May indicate significant motor impairment requiring immediate attention."
       recommendations := ["Metronome-paced walking at progressively faster tempos",
         "High knee marching exercises",
         "Quick stepping drills with cues",
         "Rhythmic auditory stimulation therapy"] }]
  else if cadence < b.p25 then
    let percentile := calculate_percentile cdf cadence b
    [{ problem := "slow_cadence"
       severity := "moderate"
       category := "Speed & Rhythm"
       current_value := pyRound cadence 1
       normal_range := fmtFixed b.p25 1 ++ " - " ++ fmtFixed b.p75 1
       percentile := some percentile
       description := "Your walking pace (" ++ fmtFixed cadence 1 ++
         " steps/min) is below average (" ++ toString percentile ++ "th percentile)."
       impact := "Reduced walking pace may cause fatigue and limit daily mobility."
       clinical_significance := "Indicates room for improvement in gait speed."
       recommendations := ["Progressive speed walking exercises",
         "Treadmill training with gradual speed increases",
         "Interval training (alternating speeds)"] }]
  else []

/-- `GaitProblemDetector._check_symmetry`. -/
def check_symmetry (cdf : ℚ → ℚ) (symmetry : ℚ) (b : Baseline) : List ProblemRecord :=
  if symmetry < b.p5 then
    let percentile := calculate_percentile cdf symmetry b
    [{ problem := "asymmetric_gait"
       severity := "severe"
       category := "Balance & Symmetry"
       current_value := pyRound symmetry 2
       normal_range := fmtFixed b.p25 2 ++ " - " ++ fmtFixed b.p75 2
       percentile := some percentile
       description := "Your gait shows significant asymmetry (symmetry score: " ++
         fmtFixed symmetry 2 ++ ", below " ++ toString percentile ++ "th percentile)."
       impact := "Severe asymmetry increases fall risk, causes uneven joint loading, and reduces walking efficiency."
       clinical_significance := "May indicate hemiparesis or significant weakness on one side."
       recommendations := ["Single-leg stance exercises (weaker side)",
         "Weight-shifting drills",
         "Mirror therapy for gait training",
         "Bilateral coordination exercises",
         "Task-specific training focusing on affected side"] }]
  else if symmetry < b.p25 then
    let percentile := calculate_percentile cdf symmetry b
    [{ problem := "asymmetric_gait"
       severity := "moderate"
       category := "Balance & Symmetry"
       current_value := pyRound symmetry 2
       normal_range := fmtFixed b.p25 2 ++ " - " ++ fmtFixed b.p75 2
       percentile := some percentile
       description := "Your gait shows mild asymmetry (" ++ fmtFixed symmetry 2 ++
         ", " ++ toString percentile ++ "th percentile)."
       impact := "Asymmetry may lead to compensatory patterns and joint stress over time."
       clinical_significance := "Indicates uneven loading between limbs."
       recommendations := ["Balance training exercises",
         "Step-up exercises (affected side)",
         "Lunges with focus on symmetry"] }]
  else []

/-- `GaitProblemDetector._check_stride_length`. -/
def check_stride_length (cdf : ℚ → ℚ) (stride_length : ℚ) (b : Baseline) : List ProblemRecord :=
  if stride_length < b.p5 then
    let percentile := calculate_percentile cdf stride_length b
    [{ problem := "short_stride"
       severity := "severe"
       category := "Gait Pattern"
       current_value := pyRound stride_length 2
       normal_range := fmtFixed b.p25 2 ++ " - " ++ fmtFixed b.p75 2
       percentile := some percentile
       description := "Your stride length (" ++ fmtFixed stride_length 2 ++
         "m) is significantly shorter than normal (below " ++
         toString percentile ++ "th percentile)."
       impact := "Very short strides severely reduce walking efficiency and speed."
       clinical_significance := "May indicate fear of falling, muscle weakness, or limited range of motion."
       recommendations := ["Lunge walking exercises to extend stride",
         "Heel-to-toe walking with exaggerated steps",
         "Visual targets for step length training",
         "Hip flexor and extensor strengthening",
         "Flexibility exercises for hip and ankle"] }]
  else if stride_length < b.p25 then
    let percentile := calculate_percentile cdf stride_length b
    [{ problem := "short_stride"
       severity := "moderate"
       category := "Gait Pattern"
       current_value := pyRound stride_length 2
       normal_range := fmtFixed b.p25 2 ++ " - " ++ fmtFixed b.p75 2
       percentile := some percentile
       description := "Your stride length (" ++ fmtFixed stride_length 2 ++
         "m) is below average (" ++ toString percentile ++ "th percentile)."
       impact := "Shorter strides reduce walking efficiency."
       clinical_significance := "Indicates potential for improvement in step length."
       recommendations := ["Obstacle stepping exercises",
         "Step length awareness training",
         "Progressive stride lengthening drills"] }]
  else []

/-- `GaitProblemDetector._check_velocity`. -/
def check_velocity (cdf : ℚ → ℚ) (velocity : ℚ) (b : Baseline) : List ProblemRecord :=
  if velocity < b.p5 then
    let percentile := calculate_percentile cdf velocity b
    [{ problem := "slow_velocity"
       severity := "severe"
       category := "Speed & Rhythm"
       current_value := pyRound velocity 2
       normal_range := fmtFixed b.p25 2 ++ " - " ++ fmtFixed b.p75 2
       percentile := some percentile
       description := "Your walking speed (" ++ fmtFixed velocity 2 ++
         " m/s) is significantly slower than normal (below " ++
         toString percentile ++ "th percentile)."
       impact := "Very slow walking speed severely limits community mobility, crossing streets, and daily activities."
       clinical_significance := "Walking speed is a strong predictor of functional independence. Speeds <0.8 m/s indicate limited community ambulation."
       recommendations := ["Progressive treadmill training",
         "Fast walking intervals",
         "Overground speed training",
         "Resistance training for leg strength",
         "Dual-task training (walking + cognitive task)"] }]
  else if velocity < b.p25 then
    let percentile := calculate_percentile cdf velocity b
    [{ problem := "slow_velocity"
       severity := "moderate"
       category := "Speed & Rhythm"
       current_value := pyRound velocity 2
       normal_range := fmtFixed b.p25 2 ++ " - " ++ fmtFixed b.p75 2
       percentile := some percentile
       description := "Your walking speed (" ++ fmtFixed velocity 2 ++
         " m/s) is below average (" ++ toString percentile ++ "th percentile)."
       impact := "Reduced speed may affect community mobility."
       clinical_significance := "Room for improvement to enhance functional mobility."
       recommendations := ["Speed walking exercises",
         "Interval training",
         "Strength training to improve power"] }]
  else []

/-- `GaitProblemDetector._check_stability` (fixed empirical cut points; the
built dict carries no `percentile` key). -/
def check_stability (stability_score : ℚ) : List ProblemRecord :=
  if stability_score < 1/2 then
    [{ problem := "poor_stability"
       severity := "severe"
       category := "Balance & Symmetry"
       current_value := pyRound stability_score 2
       normal_range := ">0.75"
       percentile := none
       description := "Your walking stability is significantly compromised (score: " ++
         fmtFixed stability_score 2 ++ ")."
       impact := "Poor stability greatly increases fall risk and limits confidence in walking."
       clinical_significance := "High fall risk - immediate intervention recommended."
       recommendations := ["Balance training on stable surfaces first",
         "Tandem walking exercises",
         "Single-leg stance practice",
         "Core strengthening exercises",
         "Gait training with assistive device if needed"] }]
  else if stability_score < 13/20 then
    [{ problem := "poor_stability"
       severity := "moderate"
       category := "Balance & Symmetry"
       current_value := pyRound stability_score 2
       normal_range := ">0.75"
       percentile := none
       description := "Your walking stability shows room for improvement (score: " ++
         fmtFixed stability_score 2 ++ ")."
       impact := "Reduced stability may affect confidence and increase caution during walking."
       clinical_significance := "Moderate fall risk."
       recommendations := ["Balance exercises",
         "Strength training for lower extremities",
         "Walking on varied surfaces"] }]
  else []

/-- `GaitProblemDetector._check_step_regularity`.  The looked-up
`stride_variability` baseline is bound but never used by the method body;
the built dict carries no `percentile` key. -/
def check_step_regularity (baseline : Baseline) (step_regularity : ℚ) : List ProblemRecord :=
  let _ := baseline
  if step_regularity < 1/2 then
    [{ problem := "irregular_steps"
       severity := "severe"
       category := "Gait Pattern"
       current_value := pyRound step_regularity 2
       normal_range := ">0.75"
       percentile := none
       description := "Your steps show significant irregularity (regularity score: " ++
         fmtFixed step_regularity 2 ++ ")."
       impact := "Highly irregular steps indicate poor motor control and increase fall risk."
       clinical_significance := "May indicate neurological impairment affecting gait timing."
       recommendations := ["Metronome-paced walking for rhythm training",
         "Visual cues for step placement",
         "Rhythmic auditory cueing therapy",
         "Task-specific gait training"] }]
  else if step_regularity < 7/10 then
    [{ problem := "irregular_steps"
       severity := "moderate"
       category := "Gait Pattern"
       current_value := pyRound step_regularity 2
       normal_range := ">0.75"
       percentile := none
       description := "Your steps show some irregularity (regularity score: " ++
         fmtFixed step_regularity 2 ++ ")."
       impact := "Irregular steps may affect walking efficiency and smoothness."
       clinical_significance := "Indicates inconsistent motor control."
       recommendations := ["Rhythm training exercises",
         "Paced walking drills",
         "Stepping pattern exercises"] }]
  else []

/-- The gate `if 'metric' in user_metrics and 'metric' in self.baselines:`
for a check reading both value and baseline. -/
def optCheck2 (f : ℚ → Baseline → List ProblemRecord) :
    Option ℚ → Option Baseline → List ProblemRecord
  | some v, some b => f v b
  | _, _ => []

/-- The gate `if 'stability_score' in user_metrics:` for the check that
reads no baseline. -/
def optCheck1 (f : ℚ → List ProblemRecord) : Option ℚ → List ProblemRecord
  | some v => f v
  | _ => []

/-- `GaitProblemDetector.detect_problems`: run every check whose metric is
present in the input and (where applicable) has a loaded baseline, in
source order. -/
def detect_problems (cdf : ℚ → ℚ) (m : UserMetrics) (bl : Baselines) : List ProblemRecord :=
  optCheck2 (check_cadence cdf) m.cadence bl.cadence ++
  optCheck2 (check_symmetry cdf) m.gait_symmetry bl.gait_symmetry ++
  optCheck2 (check_stride_length cdf) m.stride_length bl.stride_length_estimate ++
  optCheck2 (check_velocity cdf) m.velocity bl.velocity_estimate ++
  optCheck1 check_stability m.stability_score ++
  optCheck2 (fun v b => check_step_regularity b v) m.step_regularity bl.stride_variability

/-! ### problem_detector.py — prioritization and summary -/

/-- `severity_order` lookup with default 99 (`dict.get(x, 99)`). -/
def severity_order (s : String) : ℕ :=
  if s = "severe" then 0 else if s = "moderate" then 1 else if s = "mild" then 2 else 99

/-- `category_order` lookup with default 99. -/
def category_order (c : String) : ℕ :=
  if c = "Speed & Rhythm" then 0
  else if c = "Balance & Symmetry" then 1
  else if c = "Gait Pattern" then 2
  else 99

/-- The lexicographic comparison on the sort key tuple
`(severity_order, category_order)` used by `sorted(..., key=...)`. -/
def priorityLE (a b : ProblemRecord) : Bool :=
  decide (severity_order a.severity < severity_order b.severity ∨
    (severity_order a.severity = severity_order b.severity ∧
     category_order a.category ≤ category_order b.category))

/-- `GaitProblemDetector.prioritize_problems`: Python's `sorted` is a
stable sort, embedded as the verified stable `List.mergeSort`. -/
def prioritize_problems (problems : List ProblemRecord) : List ProblemRecord :=
  problems.mergeSort priorityLE

/-- The summary dict.  The count fields are `Option` because the
empty-input branch builds a dict without them. -/
structure Summary where
  overall_status : String
  risk_level : String
  total_problems : Option ℕ
  severe_count : Option ℕ
  moderate_count : Option ℕ
  summary : String
  primary_concerns : List String
deriving DecidableEq

/-- `GaitProblemDetector.generate_summary`. -/
def generate_summary (problems : List ProblemRecord) : Summary :=
  if problems.isEmpty then
    { overall_status := "normal"
      risk_level := "low"
      total_problems := none
      severe_count := none
      moderate_count := none
      summary := "Your gait parameters are within normal ranges. Continue regular physical activity to maintain mobility."
      primary_concerns := [] }
  else
    let severe_count := (problems.filter (fun p => p.severity == "severe")).length
    let moderate_count := (problems.filter (fun p => p.severity == "moderate")).length
    let pair : String × String :=
      if severe_count ≥ 2 then ("high", "needs_immediate_attention")
      else if severe_count ≥ 1 ∨ moderate_count ≥ 3 then ("moderate", "needs_attention")
      else ("low_moderate", "needs_improvement")
    { overall_status := pair.2
      risk_level := pair.1
      total_problems := some problems.length
      severe_count := some severe_count
      moderate_count := some moderate_count
      summary := "Detected " ++ toString problems.length ++ " gait abnormality(ies): " ++
        toString severe_count ++ " severe, " ++ toString moderate_count ++
        " moderate. Physical therapy focusing on " ++
        (match problems with | p :: _ => p.category.toLower | [] => "") ++
        " is recommended."
      primary_concerns := (problems.take 3).map (fun p => p.description) }

/-! ### gait_processor.py — sensor data model -/

/-- One raw sensor reading; `timestamp` is optional because the Python
dict accessors default it (`d.get('timestamp', ...)`). -/
structure Sample where
  x : ℚ
  y : ℚ
  z : ℚ
  timestamp : Option ℚ
deriving DecidableEq

/-- The per-axis arrays built by `_convert_to_arrays`. -/
structure SensorArrays where
  x : List ℚ
  y : List ℚ
  z : List ℚ
  time : List ℚ
deriving DecidableEq

/-- `GaitProcessor._convert_to_arrays`; a missing timestamp defaults to
the positional index. -/
def convert_to_arrays (sensor_data : List Sample) : SensorArrays :=
  if sensor_data.isEmpty then { x := [], y := [], z := [], time := [] }
  else
    { x := sensor_data.map (fun d => d.x)
      y := sensor_data.map (fun d => d.y)
      z := sensor_data.map (fun d => d.z)
      time := sensor_data.enum.map (fun p => p.2.timestamp.getD p.1) }

/-- `GaitProcessor._calculate_magnitude`; `sqrtQ` stands for `np.sqrt`. -/
def calculate_magnitude (sqrtQ : ℚ → ℚ) (data : SensorArrays) : List ℚ :=
  (data.x.zip (data.y.zip data.z)).map
    (fun p => sqrtQ (p.1 * p.1 + p.2.1 * p.2.1 + p.2.2 * p.2.2))

/-! ### Model of `scipy.signal.find_peaks`

The repository calls `find_peaks(filtered, distance=10, prominence=0.1)`.
The model below follows the documented algorithm: find local maxima
(plateaus reported at their midpoint), enforce the minimal horizontal
distance keeping higher peaks first, then filter by prominence. -/

/-- Advance past a plateau of value `v`: first index `j ≥ start` with
`j = length - 1` or `xs[j] ≠ v` (the inner while-loop of scipy's
`_local_maxima_1d`). -/
def plateauEnd (xs : List ℚ) (v : ℚ) (j fuel : ℕ) : ℕ :=
  match fuel with
  | 0 => j
  | fuel + 1 =>
    if j < xs.length - 1 && xs.getD j 0 == v then plateauEnd xs v (j + 1) fuel else j

/-- The scan of scipy's `_local_maxima_1d` from index `i`. -/
def localMaximaAux (xs : List ℚ) (fuel i : ℕ) : List ℕ :=
  match fuel with
  | 0 => []
  | fuel + 1 =>
    if i < xs.length - 1 then
      if xs.getD (i - 1) 0 < xs.getD i 0 then
        let j := plateauEnd xs (xs.getD i 0) (i + 1) xs.length
        if xs.getD j 0 < xs.getD i 0 then
          (i + (j - 1)) / 2 :: localMaximaAux xs fuel (j + 1)
        else localMaximaAux xs fuel (i + 1)
      else localMaximaAux xs fuel (i + 1)
    else []

/-- All strict local maxima (plateau midpoints) of a signal. -/
def localMaxima (xs : List ℚ) : List ℕ :=
  localMaximaAux xs (xs.length + 1) 1

/-- One directional walk of scipy's `_peak_prominences`: move from the
peak while the signal stays `≤` the peak value, tracking the minimum. -/
def promSide (xs : List ℚ) (pv : ℚ) (pos dir : ℤ) (best : ℚ) (fuel : ℕ) : ℚ :=
  match fuel with
  | 0 => best
  | fuel + 1 =>
    if 0 ≤ pos ∧ pos < xs.length then
      let v := xs.getD pos.toNat 0
      if v ≤ pv then promSide xs pv (pos + dir) dir (min best v) fuel else best
    else best

/-- Prominence of the peak at index `p`. -/
def prominence (xs : List ℚ) (p : ℕ) : ℚ :=
  let pv := xs.getD p 0
  let lmin := promSide xs pv p (-1) pv (xs.length + 1)
  let rmin := promSide xs pv p 1 pv (xs.length + 1)
  pv - max lmin rmin

/-- Two peak positions are admissible together when they are at least
`dist` samples apart. -/
def farApart (dist a b : ℕ) : Bool := decide (a + dist ≤ b ∨ b + dist ≤ a)

/-- Greedy pass of scipy's `_select_by_peak_distance`: walk the peaks in
priority order, keeping one exactly when every peak kept so far is at
least `dist` away. -/
def keepFar (dist : ℕ) (kept : List ℕ) : List ℕ → List ℕ
  | [] => kept
  | j :: rest =>
    if kept.all (farApart dist j) then keepFar dist (j :: kept) rest
    else keepFar dist kept rest

/-- scipy's `_select_by_peak_distance`: priority is decreasing height
(ties broken toward the later peak, matching the reversed stable argsort);
the surviving peaks are returned in ascending position order. -/
def select_by_peak_distance (xs : List ℚ) (peaks : List ℕ) (dist : ℕ) : List ℕ :=
  let priority := (peaks.insertionSort (fun a b => xs.getD a 0 ≤ xs.getD b 0)).reverse
  (keepFar dist [] priority).insertionSort (fun a b => a ≤ b)

/-- `scipy.signal.find_peaks(xs, distance, prominence)`: local maxima,
then the distance condition, then the prominence filter (scipy applies
distance before prominence). -/
def find_peaks (xs : List ℚ) (distance : ℕ) (prom : ℚ) : List ℕ :=
  let selected := select_by_peak_distance xs (localMaxima xs) distance
  selected.filter (fun p => prom ≤ prominence xs p)

/-! ### gait_processor.py — pipeline -/

/-- `GaitProcessor._bandpass_filter`.  The Butterworth design plus
zero-phase application (`signal.butter` / `signal.filtfilt`) is the
parameter `bf`; `none` models the exception branch, which falls back to
the raw data, as does the short-input guard. -/
def bandpass_filter (bf : ℚ → ℚ → List ℚ → Option (List ℚ))
    (sampling_rate : ℚ) (data : List ℚ) : List ℚ :=
  if data.length < 10 then data
  else
    let nyquist := sampling_rate / 2
    let low := (1/2) / nyquist
    let high := 3 / nyquist
    match bf low high data with
    | some filtered => filtered
    | none => data

/-- `GaitProcessor._detect_steps`: band-pass then peak detection with
distance 10 and prominence 0.1, retried once at prominence 0.05 when no
peak is found. -/
def detect_steps (bf : ℚ → ℚ → List ℚ → Option (List ℚ))
    (sampling_rate : ℚ) (magnitude : List ℚ) : List ℕ :=
  if magnitude.length < 2 then []
  else
    let filtered := bandpass_filter bf sampling_rate magnitude
    let peaks := find_peaks filtered 10 (1/10)
    if peaks.isEmpty then find_peaks filtered 10 (1/20) else peaks

/-- `GaitProcessor._calculate_duration` (ms → s). -/
def calculate_duration (sensor_data : List Sample) : ℚ :=
  if sensor_data.length < 2 then 0
  else
    let start_time := (sensor_data.head?.map (fun s => s.timestamp.getD 0)).getD 0
    let end_time := (sensor_data.getLast?.map (fun s => s.timestamp.getD 0)).getD 0
    (end_time - start_time) / 1000

/-- `GaitProcessor._calculate_sampling_rate`. -/
def calculate_sampling_rate (sensor_data : List Sample) : ℚ :=
  if sensor_data.length < 10 then 0
  else
    let timestamps := (sensor_data.take 10).map (fun s => s.timestamp.getD 0)
    let intervals := listDiff timestamps
    if intervals.length = 0 ∨ listMean intervals = 0 then 0
    else 1000 / listMean intervals

/-- `GaitProcessor._estimate_stride_length`. -/
def estimate_stride_length (sqrtQ : ℚ → ℚ) (accel_data : SensorArrays)
    (steps : List ℕ) : ℚ :=
  if steps.length < 2 then 0
  else if accel_data.y.isEmpty then 0
  else
    let step_variance := sqrtQ (listVar accel_data.y)
    min (1/2 + step_variance * (3/10)) 2

/-- `GaitProcessor._calculate_velocity`. -/
def calculate_velocity (stride_length cadence : ℚ) : ℚ :=
  stride_length * cadence / 60

/-- `xs[::2]`. -/
def everyOther : List ℚ → List ℚ
  | [] => []
  | [a] => [a]
  | a :: _ :: rest => a :: everyOther rest

/-- `GaitProcessor._analyze_symmetry`. -/
def analyze_symmetry (steps : List ℕ) : ℚ :=
  if steps.length < 4 then 1/2
  else
    let step_intervals := listDiff (steps.map (fun n : ℕ => (n : ℚ)))
    if step_intervals.length < 2 then 1/2
    else
      let even_steps := everyOther step_intervals
      let odd_steps := everyOther step_intervals.tail
      let min_len := min even_steps.length odd_steps.length
      if min_len = 0 then 1/2
      else
        let symmetry := 1 -
          min (|listMean (even_steps.take min_len) - listMean (odd_steps.take min_len)| / 10) 1
        max 0 (min 1 symmetry)

/-- `GaitProcessor._calculate_stability`. -/
def calculate_stability (sqrtQ : ℚ → ℚ) (gyro_data : SensorArrays) : ℚ :=
  if gyro_data.x.isEmpty then 1/2
  else
    let gyro_magnitude := calculate_magnitude sqrtQ gyro_data
    let variability := sqrtQ (listVar gyro_magnitude)
    let stability := 1 - min (variability / 5) 1
    max 0 (min 1 stability)

/-- One entry of the phase list of `_detect_gait_phases`. -/
structure GaitPhase where
  step_number : ℕ
  start_index : ℕ
  end_index : ℕ
  duration : ℤ
  phase : String
deriving DecidableEq

/-- `GaitProcessor._detect_gait_phases` (the accelerometer argument of the
Python method is never read by its body). -/
def detect_gait_phases (steps : List ℕ) : List GaitPhase :=
  (List.range (steps.length - 1)).map (fun i =>
    { step_number := i + 1
      start_index := steps.getD i 0
      end_index := steps.getD (i + 1) 0
      duration := (steps.getD (i + 1) 0 : ℤ) - (steps.getD i 0 : ℤ)
      phase := if i % 2 = 0 then "stance" else "swing" })

/-- `GaitProcessor._calculate_step_regularity`. -/
def calculate_step_regularity (sqrtQ : ℚ → ℚ) (steps : List ℕ) : ℚ :=
  if steps.length < 3 then 1/2
  else
    let step_intervals := listDiff (steps.map (fun n : ℕ => (n : ℚ)))
    let regularity := 1 - min (sqrtQ (listVar step_intervals) / listMean step_intervals) 1
    max 0 (min 1 regularity)

/-- `GaitProcessor._calculate_vertical_oscillation`. -/
def calculate_vertical_oscillation (sqrtQ : ℚ → ℚ) (accel_data : SensorArrays) : ℚ :=
  if accel_data.y.isEmpty then 0
  else sqrtQ (listVar accel_data.y) * (1/20)

/-- `GaitProcessor._assess_data_quality`. -/
def assess_data_quality (accel gyro : List Sample) : String :=
  if accel.length < 50 ∨ gyro.length < 50 then "poor"
  else if accel.length < 100 ∨ gyro.length < 100 then "fair"
  else if accel.length < 200 ∨ gyro.length < 200 then "good"
  else "excellent"

/-- The metrics sub-dict of an analysis result. -/
structure GaitMetrics where
  step_count : ℕ
  cadence : ℚ
  stride_length : ℚ
  velocity : ℚ
  gait_symmetry : ℚ
  stability_score : ℚ
  step_regularity : ℚ
  vertical_oscillation : ℚ
deriving DecidableEq

/-- The result dict of `GaitProcessor.analyze` (the wall-clock
`timestamp` field, `datetime.now().isoformat()`, is outside the model). -/
structure AnalysisResult where
  session_id : String
  user_id : String
  metrics : GaitMetrics
  gait_phases : List GaitPhase
  analysis_duration : ℚ
  data_quality : String
deriving DecidableEq

/-- The mutable instance state of a `GaitProcessor`. -/
structure GaitState where
  sampling_rate : ℚ
  history : List AnalysisResult
deriving DecidableEq

/-- `GaitProcessor.__init__`. -/
def gaitProcessorInit : GaitState := { sampling_rate := 50, history := [] }

/-- `GaitProcessor._add_to_history`: append, then keep the last 100. -/
def add_to_history (history : List AnalysisResult) (result : AnalysisResult) :
    List AnalysisResult :=
  let h := history ++ [result]
  if h.length > 100 then h.drop (h.length - 100) else h

/-- `GaitProcessor.analyze` as an explicit state transformer: reads
`self.sampling_rate` (fallback when the estimated rate is 0), writes the
estimated rate back when positive, and appends to the history. -/
def analyze (sqrtQ : ℚ → ℚ) (bf : ℚ → ℚ → List ℚ → Option (List ℚ))
    (st : GaitState) (accelerometer gyroscope : List Sample)
    (user_id session_id : String) : GaitState × AnalysisResult :=
  let accel_data := convert_to_arrays accelerometer
  let gyro_data := convert_to_arrays gyroscope
  let actual_sampling_rate := calculate_sampling_rate accelerometer
  let sampling_rate := if actual_sampling_rate > 0 then actual_sampling_rate else st.sampling_rate
  let accel_magnitude := calculate_magnitude sqrtQ accel_data
  let steps := detect_steps bf sampling_rate accel_magnitude
  let step_count := steps.length
  let duration := calculate_duration accelerometer
  let cadence := if duration > 0 then ((step_count : ℚ) / duration) * 60 else 0
  let stride_length := estimate_stride_length sqrtQ accel_data steps
  let velocity := calculate_velocity stride_length cadence
  let symmetry_score := analyze_symmetry steps
  let stability_score := calculate_stability sqrtQ gyro_data
  let gait_phases := detect_gait_phases steps
  let step_regularity := calculate_step_regularity sqrtQ steps
  let vertical_oscillation := calculate_vertical_oscillation sqrtQ accel_data
  let result : AnalysisResult :=
    { session_id := session_id
      user_id := user_id
      metrics :=
        { step_count := step_count
          cadence := pyRound cadence 2
          stride_length := pyRound stride_length 2
          velocity := pyRound velocity 2
          gait_symmetry := pyRound symmetry_score 2
          stability_score := pyRound stability_score 2
          step_regularity := pyRound step_regularity 2
          vertical_oscillation := pyRound vertical_oscillation 2 }
      gait_phases := gait_phases
      analysis_duration := pyRound duration 2
      data_quality := assess_data_quality accelerometer gyroscope }
  ({ sampling_rate := sampling_rate, history := add_to_history st.history result }, result)

/-! ### data_validator.py -/

/-- A dynamically typed (JSON-like) Python value, as the validator can
receive anything for a sensor stream. -/
inductive JVal where
  | null
  | bool (b : Bool)
  | num (q : ℚ)
  | str (s : String)
  | arr (elems : List JVal)
  | obj (fields : List (String × JVal))

/-- Python truthiness of a `JVal`. -/
def truthy : JVal → Bool
  | .null => false
  | .bool b => b
  | .num q => q != 0
  | .str s => s != ""
  | .arr l => !l.isEmpty
  | .obj l => !l.isEmpty

/-- `dict.get(key)`: `null` models Python `None` for an absent key. -/
def jget (data : List (String × JVal)) (key : String) : JVal :=
  match data.find? (fun p => p.1 == key) with
  | some p => p.2
  | none => .null

/-- `isinstance(v, (int, float))`; `True`/`False` count because Python
booleans are integers. -/
def isNumber : JVal → Bool
  | .num _ => true
  | .bool _ => true
  | _ => false

/-- `_validate_sensor_array`: shape errors for one stream; only the first
5 elements are inspected. -/
def validate_sensor_array (sensor_data : JVal) (sensor_type : String) : List String :=
  match sensor_data with
  | .arr elems =>
    if elems.isEmpty then [sensor_type ++ " array is empty"]
    else
      (elems.take 5).enum.flatMap (fun p =>
        match p.2 with
        | .obj fields =>
          ["x", "y", "z"].flatMap (fun field =>
            match fields.find? (fun q => q.1 == field) with
            | none =>
              [sensor_type ++ "[" ++ toString p.1 ++ "] missing \x27" ++ field ++ "\x27 field"]
            | some q =>
              if isNumber q.2 then []
              else [sensor_type ++ "[" ++ toString p.1 ++ "]." ++ field ++ " must be a number"])
        | _ => [sensor_type ++ "[" ++ toString p.1 ++ "] must be an object"])
  | _ => [sensor_type ++ " must be an array"]

/-- The dict returned by `validate_sensor_data`. -/
structure ValidationResult where
  valid : Bool
  errors : List String
deriving DecidableEq

/-- `validate_sensor_data`.  Note that each stream is validated only under
`if accelerometer:` / `if gyroscope:`, i.e. only when *truthy*. -/
def validate_sensor_data (data : List (String × JVal)) : ValidationResult :=
  if data.isEmpty then { valid := false, errors := ["No data provided"] }
  else
    let accelerometer := jget data "accelerometer"
    let gyroscope := jget data "gyroscope"
    let e1 := if !truthy accelerometer && !truthy gyroscope then
        ["At least one sensor type (accelerometer or gyroscope) is required"]
      else []
    let e2 := if truthy accelerometer then validate_sensor_array accelerometer "accelerometer" else []
    let e3 := if truthy gyroscope then validate_sensor_array gyroscope "gyroscope" else []
    let errors := e1 ++ e2 ++ e3
    { valid := errors.isEmpty, errors := errors }

/-! ### Helper lemmas -/

theorem roundHalfEven_ge_floor (x : ℚ) : ⌊x⌋ ≤ roundHalfEven x := by
  simp only [roundHalfEven]
  split_ifs <;> omega

theorem roundHalfEven_le_ceil (x : ℚ) : roundHalfEven x ≤ ⌈x⌉ := by
  simp only [roundHalfEven]
  have hfc := Int.floor_le_ceil x
  split_ifs with h1 h2 h3
  · exact hfc
  · have hx : (⌊x⌋ : ℚ) < x := by linarith
    have := Int.lt_ceil.mpr hx
    omega
  · exact hfc
  · have hx : (⌊x⌋ : ℚ) < x := by
      have h1' : (1 : ℚ)/2 ≤ x - ⌊x⌋ := not_lt.mp h1
      linarith
    have := Int.lt_ceil.mpr hx
    omega

theorem pyRound_nonneg (x : ℚ) (n : ℕ) (h : 0 ≤ x) : 0 ≤ pyRound x n := by
  unfold pyRound
  have hp : (0:ℚ) < 10 ^ n := by positivity
  apply div_nonneg _ (le_of_lt hp)
  have h0 : (0:ℤ) ≤ ⌊x * 10 ^ n⌋ := Int.floor_nonneg.mpr (by positivity)
  have := roundHalfEven_ge_floor (x * 10 ^ n)
  exact_mod_cast le_trans h0 this

theorem pyRound_le (x : ℚ) (n : ℕ) (k : ℤ) (h : x ≤ (k : ℚ)) : pyRound x n ≤ (k : ℚ) := by
  unfold pyRound
  have hp : (0:ℚ) < 10 ^ n := by positivity
  rw [div_le_iff₀ hp]
  have hc : ⌈x * 10 ^ n⌉ ≤ k * 10 ^ n := by
    apply Int.ceil_le.mpr
    push_cast
    exact mul_le_mul_of_nonneg_right h (le_of_lt hp)
  have hle : roundHalfEven (x * 10 ^ n) ≤ k * 10 ^ n :=
    le_trans (roundHalfEven_le_ceil (x * 10 ^ n)) hc
  calc ((roundHalfEven (x * 10 ^ n) : ℚ)) ≤ ((k * 10 ^ n : ℤ) : ℚ) := by exact_mod_cast hle
    _ = (k : ℚ) * 10 ^ n := by push_cast; ring

theorem truncInt_mono : Monotone truncInt := by
  intro a b hab
  unfold truncInt
  by_cases ha : 0 ≤ a
  · rw [if_pos ha, if_pos (le_trans ha hab)]
    exact Int.floor_le_floor hab
  · by_cases hb : 0 ≤ b
    · rw [if_neg ha, if_pos hb]
      have h1 : ⌈a⌉ ≤ ⌈(0:ℚ)⌉ := Int.ceil_le_ceil (le_of_lt (not_le.mp ha))
      have h2 : (0:ℤ) ≤ ⌊b⌋ := Int.floor_nonneg.mpr hb
      simp at h1
      omega
    · rw [if_neg ha, if_neg hb]
      exact Int.ceil_le_ceil hab

theorem listMean_nonneg (xs : List ℚ) (h : ∀ x ∈ xs, 0 ≤ x) : 0 ≤ listMean xs := by
  unfold listMean
  apply div_nonneg (List.sum_nonneg h)
  exact_mod_cast Nat.zero_le xs.length

theorem listVar_nonneg (xs : List ℚ) : 0 ≤ listVar xs := by
  unfold listVar
  apply listMean_nonneg
  intro x hx
  simp only [List.mem_map] at hx
  obtain ⟨y, -, rfl⟩ := hx
  exact mul_self_nonneg _

theorem listDiff_length (xs : List ℚ) : (listDiff xs).length = xs.length - 1 := by
  induction xs with
  | nil => simp [listDiff]
  | cons a t ih =>
    cases t with
    | nil => simp [listDiff]
    | cons b r =>
      simp only [listDiff, List.length_cons] at ih ⊢
      omega

theorem listMean_pos (xs : List ℚ) (hne : xs ≠ []) (h : ∀ x ∈ xs, (10:ℚ) ≤ x) :
    0 < listMean xs := by
  unfold listMean
  have hlen : 0 < xs.length := List.length_pos.mpr hne
  apply div_pos _ (by exact_mod_cast hlen)
  have key : ∀ ys : List ℚ, (∀ x ∈ ys, (10:ℚ) ≤ x) → (10:ℚ) * ys.length ≤ ys.sum := by
    intro ys
    induction ys with
    | nil => simp
    | cons a t ih =>
      intro hy
      simp only [List.sum_cons, List.length_cons]
      have h1 := hy a (List.mem_cons_self a t)
      have h2 := ih (fun x hx => hy x (List.mem_cons_of_mem a hx))
      push_cast
      linarith
  have h10 := key xs h
  have hq : (0:ℚ) < (xs.length : ℚ) := by exact_mod_cast hlen
  linarith

/-! ### C7 — sampling-rate estimation -/

/-- C7: `_calculate_sampling_rate` returns `1000 / mean(first-10 deltas)`
when at least 10 samples exist and the mean delta is nonzero, and the
sentinel 0 when fewer than 10 samples exist or the mean delta is zero. -/
theorem calculate_sampling_rate_spec (data : List Sample) :
    (data.length < 10 → calculate_sampling_rate data = 0) ∧
    (10 ≤ data.length →
      ((listDiff ((data.take 10).map (fun s => s.timestamp.getD 0))).length = 9 ∧
       (listMean (listDiff ((data.take 10).map (fun s => s.timestamp.getD 0))) = 0 →
          calculate_sampling_rate data = 0) ∧
       (listMean (listDiff ((data.take 10).map (fun s => s.timestamp.getD 0))) ≠ 0 →
          calculate_sampling_rate data =
            1000 / listMean (listDiff ((data.take 10).map (fun s => s.timestamp.getD 0)))))) := by
  constructor
  · intro h
    unfold calculate_sampling_rate
    rw [if_pos h]
  · intro h
    have hlen : (listDiff ((data.take 10).map (fun s => s.timestamp.getD 0))).length = 9 := by
      rw [listDiff_length, List.length_map, List.length_take]
      omega
    refine ⟨hlen, ?_, ?_⟩
    · intro hmean
      unfold calculate_sampling_rate
      rw [if_neg (by omega)]
      rw [if_pos (Or.inr hmean)]
    · intro hmean
      unfold calculate_sampling_rate
      rw [if_neg (by omega)]
      rw [if_neg (by push_neg; exact ⟨by omega, hmean⟩)]

/-- A concrete 10-sample stream with 20 ms spacing. -/
def tenSamples : List Sample :=
  [{ x := 0, y := 0, z := 0, timestamp := some 0 },
   { x := 0, y := 0, z := 0, timestamp := some 20 },
   { x := 0, y := 0, z := 0, timestamp := some 40 },
   { x := 0, y := 0, z := 0, timestamp := some 60 },
   { x := 0, y := 0, z := 0, timestamp := some 80 },
   { x := 0, y := 0, z := 0, timestamp := some 100 },
   { x := 0, y := 0, z := 0, timestamp := some 120 },
   { x := 0, y := 0, z := 0, timestamp := some 140 },
   { x := 0, y := 0, z := 0, timestamp := some 160 },
   { x := 0, y := 0, z := 0, timestamp := some 180 }]

/-- Witness for C7: the 20 ms stream estimates 50 Hz; its 9-sample prefix
returns the sentinel 0. -/
theorem calculate_sampling_rate_spec_witness :
    calculate_sampling_rate tenSamples = 50 ∧
    calculate_sampling_rate (tenSamples.take 9) = 0 := by
  constructor
  · have h := (calculate_sampling_rate_spec tenSamples).2 (by norm_num [tenSamples])
    rw [h.2.2 (by norm_num [tenSamples, listDiff, listMean])]
    norm_num [tenSamples, listDiff, listMean]
  · exact (calculate_sampling_rate_spec _).1 (by norm_num [tenSamples])

/-! ### C5 — validation of a present-but-empty stream -/

/-- A payload whose accelerometer key is present but maps to the empty
list, next to a well-formed non-empty gyroscope stream. -/
def emptyAccelPayload : List (String × JVal) :=
  [("accelerometer", JVal.arr []),
   ("gyroscope", JVal.arr [JVal.obj [("x", JVal.num 1), ("y", JVal.num 2), ("z", JVal.num 3)]])]

/-- C5 (failing-input evaluation): because an empty Python list is falsy,
`validate_sensor_data` never reaches the `"array is empty"` branch of
`_validate_sensor_array` for a present-but-empty stream; the payload is
accepted with `valid = True` and no errors — the guarded empty-array error
is dead code from the top-level entry point. -/
theorem validate_sensor_data_accepts_empty_stream :
    validate_sensor_data emptyAccelPayload = { valid := true, errors := [] } ∧
    validate_sensor_array (JVal.arr []) "accelerometer" =
      ["accelerometer array is empty"] := by
  constructor <;> rfl

/-! ### C3 — summary risk levels -/

/-- C3: `generate_summary` yields `risk_level = "high"` exactly for ≥ 2
severe findings, `"moderate"` exactly for (≥ 1 severe or ≥ 3 moderate)
with fewer than 2 severe, `"low_moderate"` for any other non-empty list,
and the fixed `"normal"`/`"low"` summary on the empty list. -/
theorem generate_summary_spec :
    (∀ problems : List ProblemRecord,
      ((generate_summary problems).risk_level = "high" ↔
        2 ≤ (problems.filter (fun p => p.severity == "severe")).length) ∧
      ((generate_summary problems).risk_level = "moderate" ↔
        ((1 ≤ (problems.filter (fun p => p.severity == "severe")).length ∨
          3 ≤ (problems.filter (fun p => p.severity == "moderate")).length) ∧
         (problems.filter (fun p => p.severity == "severe")).length < 2)) ∧
      ((generate_summary problems).risk_level = "low_moderate" ↔
        (problems ≠ [] ∧
         ¬ (1 ≤ (problems.filter (fun p => p.severity == "severe")).length ∨
            3 ≤ (problems.filter (fun p => p.severity == "moderate")).length)))) ∧
    (generate_summary []).overall_status = "normal" ∧
    (generate_summary []).risk_level = "low" := by
  refine ⟨fun problems => ?_, rfl, rfl⟩
  by_cases hempty : problems = []
  · subst hempty
    refine ⟨by decide, by decide, by decide⟩
  · have hne : ¬ (problems.isEmpty = true) := by
      simp [List.isEmpty_iff, hempty]
    unfold generate_summary
    rw [if_neg hne]
    dsimp only
    split_ifs with h1 h2
    · refine ⟨by simp [h1], ?_, ?_⟩
      · constructor
        · intro h
          exact absurd h (by decide)
        · intro h
          omega
      · constructor
        · intro h
          exact absurd h (by decide)
        · intro h
          exact absurd (Or.inl (by omega)) h.2
    · refine ⟨?_, by simp only [h2, true_and]; constructor <;> intro <;> first | omega | trivial, ?_⟩
      · constructor
        · intro h
          exact absurd h (by decide)
        · intro h
          omega
      · constructor
        · intro h
          exact absurd h (by decide)
        · intro h
          exact absurd h2 h.2
    · refine ⟨?_, ?_, by simp [hempty, h2]⟩
      · constructor
        · intro h
          exact absurd h (by decide)
        · intro h
          omega
      · constructor
        · intro h
          exact absurd h (by decide)
        · intro h
          exact absurd h.1 h2

/-! ### C2 — percentile computation -/

/-- C2: for a fixed baseline and any monotone CDF model with
`cdf 0 = 1/2` (both properties of the standard-normal CDF the code calls),
`_calculate_percentile` is non-decreasing in the value, always lands in
`[1, 99]`, equals 50 at the baseline mean, and equals 50 everywhere when
`std ≤ 0`. -/
theorem calculate_percentile_spec (cdf : ℚ → ℚ) (b : Baseline)
    (hmono : Monotone cdf) (h0 : cdf 0 = 1/2) :
    Monotone (fun v => calculate_percentile cdf v b) ∧
    (∀ v, 1 ≤ calculate_percentile cdf v b ∧ calculate_percentile cdf v b ≤ 99) ∧
    calculate_percentile cdf b.mean b = 50 ∧
    (b.std ≤ 0 → ∀ v, calculate_percentile cdf v b = 50) := by
  have hfifty : ∀ v, (if b.std > 0 then (v - b.mean) / b.std else 0) = 0 →
      calculate_percentile cdf v b = 50 := by
    intro v hz
    unfold calculate_percentile
    dsimp only
    rw [hz, h0]
    norm_num [truncInt]
  refine ⟨?_, ?_, ?_, ?_⟩
  · intro v1 v2 hv
    unfold calculate_percentile
    dsimp only
    have hz : (if b.std > 0 then (v1 - b.mean) / b.std else 0) ≤
        (if b.std > 0 then (v2 - b.mean) / b.std else 0) := by
      split_ifs with h
      · exact div_le_div_of_le_of_nonneg (by linarith) (le_of_lt h)
      · exact le_refl 0
    have hcdf := hmono hz
    have hmul : cdf (if b.std > 0 then (v1 - b.mean) / b.std else 0) * 100 ≤
        cdf (if b.std > 0 then (v2 - b.mean) / b.std else 0) * 100 := by
      linarith
    exact max_le_max (le_refl 1) (min_le_min (le_refl 99) (truncInt_mono hmul))
  · intro v
    unfold calculate_percentile
    constructor
    · exact le_max_left 1 _
    · exact max_le (by norm_num) (min_le_left 99 _)
  · apply hfifty
    split_ifs with h
    · rw [sub_self, zero_div]
    · rfl
  · intro hstd v
    apply hfifty
    rw [if_neg (not_lt.mpr hstd)]

/-- A concrete monotone CDF model with value `1/2` at 0, used to
instantiate theorems whose CDF argument is abstract. -/
def cdfLin (z : ℚ) : ℚ := max 0 (min 1 (1/2 + z/8))

theorem cdfLin_monotone : Monotone cdfLin := by
  intro a b hab
  unfold cdfLin
  exact max_le_max (le_refl 0) (min_le_min (le_refl 1) (by linarith))

theorem cdfLin_zero : cdfLin 0 = 1/2 := by
  unfold cdfLin
  norm_num

/-- A concrete baseline record used by witnesses. -/
def baseCadence : Baseline :=
  { mean := 100, std := 10, p5 := 80, p25 := 90, p75 := 110 }

/-- Witness for C2 at the concrete CDF model and baseline. -/
theorem calculate_percentile_spec_witness :
    calculate_percentile cdfLin baseCadence.mean baseCadence = 50 ∧
    1 ≤ calculate_percentile cdfLin 75 baseCadence ∧
    calculate_percentile cdfLin 75 baseCadence ≤ 99 := by
  have h := calculate_percentile_spec cdfLin baseCadence cdfLin_monotone cdfLin_zero
  exact ⟨h.2.2.1, (h.2.1 75).1, (h.2.1 75).2⟩

/-! ### C1 — severity classification against baselines -/

theorem check_cadence_problem (cdf : ℚ → ℚ) (v : ℚ) (b : Baseline) :
    ∀ q ∈ check_cadence cdf v b, q.problem = "slow_cadence" := by
  intro q hq
  unfold check_cadence at hq
  split_ifs at hq <;> simp only [List.mem_singleton, List.not_mem_nil] at hq
  · subst hq; rfl
  · subst hq; rfl

theorem check_symmetry_problem (cdf : ℚ → ℚ) (v : ℚ) (b : Baseline) :
    ∀ q ∈ check_symmetry cdf v b, q.problem = "asymmetric_gait" := by
  intro q hq
  unfold check_symmetry at hq
  split_ifs at hq <;> simp only [List.mem_singleton, List.not_mem_nil] at hq
  · subst hq; rfl
  · subst hq; rfl

theorem check_stride_length_problem (cdf : ℚ → ℚ) (v : ℚ) (b : Baseline) :
    ∀ q ∈ check_stride_length cdf v b, q.problem = "short_stride" := by
  intro q hq
  unfold check_stride_length at hq
  split_ifs at hq <;> simp only [List.mem_singleton, List.not_mem_nil] at hq
  · subst hq; rfl
  · subst hq; rfl

theorem check_velocity_problem (cdf : ℚ → ℚ) (v : ℚ) (b : Baseline) :
    ∀ q ∈ check_velocity cdf v b, q.problem = "slow_velocity" := by
  intro q hq
  unfold check_velocity at hq
  split_ifs at hq <;> simp only [List.mem_singleton, List.not_mem_nil] at hq
  · subst hq; rfl
  · subst hq; rfl

theorem check_stability_problem (v : ℚ) :
    ∀ q ∈ check_stability v, q.problem = "poor_stability" := by
  intro q hq
  unfold check_stability at hq
  split_ifs at hq <;> simp only [List.mem_singleton, List.not_mem_nil] at hq
  · subst hq; rfl
  · subst hq; rfl

theorem check_step_regularity_problem (b : Baseline) (v : ℚ) :
    ∀ q ∈ check_step_regularity b v, q.problem = "irregular_steps" := by
  intro q hq
  unfold check_step_regularity at hq
  split_ifs at hq <;> simp only [List.mem_singleton, List.not_mem_nil] at hq
  · subst hq; rfl
  · subst hq; rfl

/-- Filtering a finding list by problem name keeps everything or nothing,
depending on whether the list's (uniform) problem name matches. -/
theorem filter_by_problem (l : List ProblemRecord) (s t : String)
    (h : ∀ q ∈ l, q.problem = s) :
    l.filter (fun p => p.problem == t) = if s = t then l else [] := by
  split_ifs with hst
  · subst hst
    apply List.filter_eq_self.mpr
    intro a ha
    simp [h a ha]
  · apply List.filter_eq_nil_iff.mpr
    intro a ha
    simp only [beq_iff_eq, h a ha]
    exact fun heq => hst heq

theorem optCheck2_forall (f : ℚ → Baseline → List ProblemRecord)
    (o1 : Option ℚ) (o2 : Option Baseline) (P : ProblemRecord → Prop)
    (h : ∀ v b, ∀ q ∈ f v b, P q) : ∀ q ∈ optCheck2 f o1 o2, P q := by
  cases o1 with
  | none => intro q hq; cases hq
  | some v =>
    cases o2 with
    | none => intro q hq; cases hq
    | some b => exact h v b

theorem optCheck1_forall (f : ℚ → List ProblemRecord)
    (o1 : Option ℚ) (P : ProblemRecord → Prop)
    (h : ∀ v, ∀ q ∈ f v, P q) : ∀ q ∈ optCheck1 f o1, P q := by
  cases o1 with
  | none => intro q hq; cases hq
  | some v => exact h v

theorem check_cadence_severities (cdf : ℚ → ℚ) (v : ℚ) (b : Baseline) :
    (check_cadence cdf v b).map (fun p => p.severity) =
      (if v < b.p5 then ["severe"] else if v < b.p25 then ["moderate"] else []) := by
  unfold check_cadence
  split_ifs <;> rfl

theorem check_symmetry_severities (cdf : ℚ → ℚ) (v : ℚ) (b : Baseline) :
    (check_symmetry cdf v b).map (fun p => p.severity) =
      (if v < b.p5 then ["severe"] else if v < b.p25 then ["moderate"] else []) := by
  unfold check_symmetry
  split_ifs <;> rfl

theorem check_stride_length_severities (cdf : ℚ → ℚ) (v : ℚ) (b : Baseline) :
    (check_stride_length cdf v b).map (fun p => p.severity) =
      (if v < b.p5 then ["severe"] else if v < b.p25 then ["moderate"] else []) := by
  unfold check_stride_length
  split_ifs <;> rfl

theorem check_velocity_severities (cdf : ℚ → ℚ) (v : ℚ) (b : Baseline) :
    (check_velocity cdf v b).map (fun p => p.severity) =
      (if v < b.p5 then ["severe"] else if v < b.p25 then ["moderate"] else []) := by
  unfold check_velocity
  split_ifs <;> rfl

theorem filter_by_problem_ne (l : List ProblemRecord) (s t : String)
    (h : ∀ q ∈ l, q.problem = s) (hne : s ≠ t) :
    l.filter (fun p => p.problem == t) = [] := by
  rw [filter_by_problem l s t h, if_neg hne]

theorem filter_by_problem_eq (l : List ProblemRecord) (t : String)
    (h : ∀ q ∈ l, q.problem = t) :
    l.filter (fun p => p.problem == t) = l := by
  rw [filter_by_problem l t t h, if_pos rfl]

theorem optCheck2_some (f : ℚ → Baseline → List ProblemRecord) (v : ℚ) (b : Baseline) :
    optCheck2 f (some v) (some b) = f v b := rfl

theorem optCheck1_some (f : ℚ → List ProblemRecord) (v : ℚ) :
    optCheck1 f (some v) = f v := rfl

/-- C1: for each of the four baseline-backed metrics present in the input,
`detect_problems` reports that metric severe exactly when `value < p5`,
moderate exactly when `p5 ≤ value < p25`, and not at all otherwise — in
particular a value exactly at `p5` is not severe. -/
theorem detect_problems_classification (cdf : ℚ → ℚ) (m : UserMetrics)
    (bl : Baselines) (v : ℚ) (b : Baseline) :
    (m.cadence = some v → bl.cadence = some b →
      ((detect_problems cdf m bl).filter (fun p => p.problem == "slow_cadence")).map
          (fun p => p.severity) =
        (if v < b.p5 then ["severe"] else if v < b.p25 then ["moderate"] else [])) ∧
    (m.gait_symmetry = some v → bl.gait_symmetry = some b →
      ((detect_problems cdf m bl).filter (fun p => p.problem == "asymmetric_gait")).map
          (fun p => p.severity) =
        (if v < b.p5 then ["severe"] else if v < b.p25 then ["moderate"] else [])) ∧
    (m.stride_length = some v → bl.stride_length_estimate = some b →
      ((detect_problems cdf m bl).filter (fun p => p.problem == "short_stride")).map
          (fun p => p.severity) =
        (if v < b.p5 then ["severe"] else if v < b.p25 then ["moderate"] else [])) ∧
    (m.velocity = some v → bl.velocity_estimate = some b →
      ((detect_problems cdf m bl).filter (fun p => p.problem == "slow_velocity")).map
          (fun p => p.severity) =
        (if v < b.p5 then ["severe"] else if v < b.p25 then ["moderate"] else [])) := by
  refine ⟨?_, ?_, ?_, ?_⟩
  · intro h1 h2
    unfold detect_problems
    rw [h1, h2]
    simp only [List.filter_append, List.map_append]
    rw [filter_by_problem_ne _ _ _
      (optCheck2_forall _ m.gait_symmetry bl.gait_symmetry _
        (fun v' b' => check_symmetry_problem cdf v' b')) (by decide)]
    rw [filter_by_problem_ne _ _ _
      (optCheck2_forall _ m.stride_length bl.stride_length_estimate _
        (fun v' b' => check_stride_length_problem cdf v' b')) (by decide)]
    rw [filter_by_problem_ne _ _ _
      (optCheck2_forall _ m.velocity bl.velocity_estimate _
        (fun v' b' => check_velocity_problem cdf v' b')) (by decide)]
    rw [filter_by_problem_ne _ _ _
      (optCheck1_forall _ m.stability_score _
        (fun v' => check_stability_problem v')) (by decide)]
    rw [filter_by_problem_ne _ _ _
      (optCheck2_forall _ m.step_regularity bl.stride_variability _
        (fun v' b' => check_step_regularity_problem b' v')) (by decide)]
    rw [optCheck2_some]
    rw [filter_by_problem_eq _ _ (check_cadence_problem cdf v b)]
    simp only [List.append_nil, List.nil_append, List.map_nil]
    exact check_cadence_severities cdf v b
  · intro h1 h2
    unfold detect_problems
    rw [h1, h2]
    simp only [List.filter_append, List.map_append]
    rw [filter_by_problem_ne _ _ _
      (optCheck2_forall _ m.cadence bl.cadence _
        (fun v' b' => check_cadence_problem cdf v' b')) (by decide)]
    rw [filter_by_problem_ne _ _ _
      (optCheck2_forall _ m.stride_length bl.stride_length_estimate _
        (fun v' b' => check_stride_length_problem cdf v' b')) (by decide)]
    rw [filter_by_problem_ne _ _ _
      (optCheck2_forall _ m.velocity bl.velocity_estimate _
        (fun v' b' => check_velocity_problem cdf v' b')) (by decide)]
    rw [filter_by_problem_ne _ _ _
      (optCheck1_forall _ m.stability_score _
        (fun v' => check_stability_problem v')) (by decide)]
    rw [filter_by_problem_ne _ _ _
      (optCheck2_forall _ m.step_regularity bl.stride_variability _
        (fun v' b' => check_step_regularity_problem b' v')) (by decide)]
    rw [optCheck2_some]
    rw [filter_by_problem_eq _ _ (check_symmetry_problem cdf v b)]
    simp only [List.append_nil, List.nil_append, List.map_nil]
    exact check_symmetry_severities cdf v b
  · intro h1 h2
    unfold detect_problems
    rw [h1, h2]
    simp only [List.filter_append, List.map_append]
    rw [filter_by_problem_ne _ _ _
      (optCheck2_forall _ m.cadence bl.cadence _
        (fun v' b' => check_cadence_problem cdf v' b')) (by decide)]
    rw [filter_by_problem_ne _ _ _
      (optCheck2_forall _ m.gait_symmetry bl.gait_symmetry _
        (fun v' b' => check_symmetry_problem cdf v' b')) (by decide)]
    rw [filter_by_problem_ne _ _ _
      (optCheck2_forall _ m.velocity bl.velocity_estimate _
        (fun v' b' => check_velocity_problem cdf v' b')) (by decide)]
    rw [filter_by_problem_ne _ _ _
      (optCheck1_forall _ m.stability_score _
        (fun v' => check_stability_problem v')) (by decide)]
    rw [filter_by_problem_ne _ _ _
      (optCheck2_forall _ m.step_regularity bl.stride_variability _
        (fun v' b' => check_step_regularity_problem b' v')) (by decide)]
    rw [optCheck2_some]
    rw [filter_by_problem_eq _ _ (check_stride_length_problem cdf v b)]
    simp only [List.append_nil, List.nil_append, List.map_nil]
    exact check_stride_length_severities cdf v b
  · intro h1 h2
    unfold detect_problems
    rw [h1, h2]
    simp only [List.filter_append, List.map_append]
    rw [filter_by_problem_ne _ _ _
      (optCheck2_forall _ m.cadence bl.cadence _
        (fun v' b' => check_cadence_problem cdf v' b')) (by decide)]
    rw [filter_by_problem_ne _ _ _
      (optCheck2_forall _ m.gait_symmetry bl.gait_symmetry _
        (fun v' b' => check_symmetry_problem cdf v' b')) (by decide)]
    rw [filter_by_problem_ne _ _ _
      (optCheck2_forall _ m.stride_length bl.stride_length_estimate _
        (fun v' b' => check_stride_length_problem cdf v' b')) (by decide)]
    rw [filter_by_problem_ne _ _ _
      (optCheck1_forall _ m.stability_score _
        (fun v' => check_stability_problem v')) (by decide)]
    rw [filter_by_problem_ne _ _ _
      (optCheck2_forall _ m.step_regularity bl.stride_variability _
        (fun v' b' => check_step_regularity_problem b' v')) (by decide)]
    rw [optCheck2_some]
    rw [filter_by_problem_eq _ _ (check_velocity_problem cdf v b)]
    simp only [List.append_nil, List.nil_append, List.map_nil]
    exact check_velocity_severities cdf v b

/-- A metrics record carrying value 70 for the four baseline-backed
metrics. -/
def metricsSeventy : UserMetrics :=
  { step_count := none
    cadence := some 70
    stride_length := some 70
    velocity := some 70
    gait_symmetry := some 70
    stability_score := none
    step_regularity := none
    vertical_oscillation := none }

/-- Baselines mapping every baseline-backed metric to `baseCadence`. -/
def baselinesAll : Baselines :=
  { cadence := some baseCadence
    gait_symmetry := some baseCadence
    stride_length_estimate := some baseCadence
    velocity_estimate := some baseCadence
    stride_variability := none }

/-- Witness for C1: value 70 sits below `p5 = 80` of the concrete
baseline, so every one of the four checks reports a severe finding. -/
theorem detect_problems_classification_witness :
    ((detect_problems cdfLin metricsSeventy baselinesAll).filter
        (fun p => p.problem == "slow_cadence")).map (fun p => p.severity) = ["severe"] ∧
    ((detect_problems cdfLin metricsSeventy baselinesAll).filter
        (fun p => p.problem == "asymmetric_gait")).map (fun p => p.severity) = ["severe"] ∧
    ((detect_problems cdfLin metricsSeventy baselinesAll).filter
        (fun p => p.problem == "short_stride")).map (fun p => p.severity) = ["severe"] ∧
    ((detect_problems cdfLin metricsSeventy baselinesAll).filter
        (fun p => p.problem == "slow_velocity")).map (fun p => p.severity) = ["severe"] := by
  have h := detect_problems_classification cdfLin metricsSeventy baselinesAll 70 baseCadence
  refine ⟨?_, ?_, ?_, ?_⟩
  · rw [h.1 rfl rfl]
    norm_num [baseCadence]
  · rw [h.2.1 rfl rfl]
    norm_num [baseCadence]
  · rw [h.2.2.1 rfl rfl]
    norm_num [baseCadence]
  · rw [h.2.2.2 rfl rfl]
    norm_num [baseCadence]

/-! ### C8 — finding-record fields -/

theorem check_cadence_fields (cdf : ℚ → ℚ) (v : ℚ) (b : Baseline) :
    ∀ q ∈ check_cadence cdf v b, q.percentile.isSome = true ∧ q.recommendations ≠ [] := by
  intro q hq
  unfold check_cadence at hq
  split_ifs at hq <;> simp only [List.mem_singleton, List.not_mem_nil] at hq
  · subst hq; exact ⟨rfl, by simp⟩
  · subst hq; exact ⟨rfl, by simp⟩

theorem check_symmetry_fields (cdf : ℚ → ℚ) (v : ℚ) (b : Baseline) :
    ∀ q ∈ check_symmetry cdf v b, q.percentile.isSome = true ∧ q.recommendations ≠ [] := by
  intro q hq
  unfold check_symmetry at hq
  split_ifs at hq <;> simp only [List.mem_singleton, List.not_mem_nil] at hq
  · subst hq; exact ⟨rfl, by simp⟩
  · subst hq; exact ⟨rfl, by simp⟩

theorem check_stride_length_fields (cdf : ℚ → ℚ) (v : ℚ) (b : Baseline) :
    ∀ q ∈ check_stride_length cdf v b, q.percentile.isSome = true ∧ q.recommendations ≠ [] := by
  intro q hq
  unfold check_stride_length at hq
  split_ifs at hq <;> simp only [List.mem_singleton, List.not_mem_nil] at hq
  · subst hq; exact ⟨rfl, by simp⟩
  · subst hq; exact ⟨rfl, by simp⟩

theorem check_velocity_fields (cdf : ℚ → ℚ) (v : ℚ) (b : Baseline) :
    ∀ q ∈ check_velocity cdf v b, q.percentile.isSome = true ∧ q.recommendations ≠ [] := by
  intro q hq
  unfold check_velocity at hq
  split_ifs at hq <;> simp only [List.mem_singleton, List.not_mem_nil] at hq
  · subst hq; exact ⟨rfl, by simp⟩
  · subst hq; exact ⟨rfl, by simp⟩

theorem check_stability_fields (v : ℚ) :
    ∀ q ∈ check_stability v, q.percentile = none ∧ q.recommendations ≠ [] := by
  intro q hq
  unfold check_stability at hq
  split_ifs at hq <;> simp only [List.mem_singleton, List.not_mem_nil] at hq
  · subst hq; exact ⟨rfl, by simp⟩
  · subst hq; exact ⟨rfl, by simp⟩

theorem check_step_regularity_fields (b : Baseline) (v : ℚ) :
    ∀ q ∈ check_step_regularity b v, q.percentile = none ∧ q.recommendations ≠ [] := by
  intro q hq
  unfold check_step_regularity at hq
  split_ifs at hq <;> simp only [List.mem_singleton, List.not_mem_nil] at hq
  · subst hq; exact ⟨rfl, by simp⟩
  · subst hq; exact ⟨rfl, by simp⟩

/-- A metrics record carrying only a (poor) stability score. -/
def metricsStabilityOnly : UserMetrics :=
  { step_count := none
    cadence := none
    stride_length := none
    velocity := none
    gait_symmetry := none
    stability_score := some (2/5)
    step_regularity := none
    vertical_oscillation := none }

/-- A baselines map with nothing loaded. -/
def baselinesNone : Baselines :=
  { cadence := none
    gait_symmetry := none
    stride_length_estimate := none
    velocity_estimate := none
    stride_variability := none }

/-- Counterexample for C8: a stability score of 0.4 produces one severe
finding whose dict has no `percentile` key, so not every finding of
`detect_problems` carries a percentile. -/
theorem detect_problems_percentile_counterexample :
    (detect_problems cdfLin metricsStabilityOnly baselinesNone).map
        (fun p => p.percentile) = [none] ∧
    ¬ (∀ p ∈ detect_problems cdfLin metricsStabilityOnly baselinesNone,
         p.percentile.isSome = true) := by
  have hmap : (detect_problems cdfLin metricsStabilityOnly baselinesNone).map
      (fun p => p.percentile) = [none] := by
    simp only [detect_problems, metricsStabilityOnly, baselinesNone, optCheck1, optCheck2,
      List.append_nil, List.nil_append]
    unfold check_stability
    rw [if_pos (by norm_num)]
    rfl
  refine ⟨hmap, fun h => ?_⟩
  obtain ⟨p, hpmem, hpnone⟩ :
      ∃ p, p ∈ detect_problems cdfLin metricsStabilityOnly baselinesNone ∧
        p.percentile = none := by
    cases hd : detect_problems cdfLin metricsStabilityOnly baselinesNone with
    | nil => rw [hd] at hmap; simp at hmap
    | cons a t =>
      rw [hd] at hmap
      simp only [List.map_cons, List.cons.injEq] at hmap
      exact ⟨a, List.mem_cons_self a t, hmap.1⟩
  have := h p hpmem
  rw [hpnone] at this
  simp at this

/-- C8 (amended): every finding carries a non-empty recommendation list,
and carries a percentile exactly when it comes from one of the four
baseline-backed checks; the stability and step-regularity findings carry
none. -/
theorem detect_problems_percentile_iff (cdf : ℚ → ℚ) (m : UserMetrics) (bl : Baselines) :
    ∀ p ∈ detect_problems cdf m bl,
      p.recommendations ≠ [] ∧
      (p.percentile.isSome = true ↔
        (p.problem = "slow_cadence" ∨ p.problem = "asymmetric_gait" ∨
         p.problem = "short_stride" ∨ p.problem = "slow_velocity")) := by
  intro p hp
  unfold detect_problems at hp
  rcases List.mem_append.mp hp with hp2 | h
  case inr =>
    have hblock : ∀ q ∈ optCheck2 (fun v b => check_step_regularity b v) m.step_regularity bl.stride_variability,
        q.recommendations ≠ [] ∧
        (q.percentile.isSome = true ↔
          (q.problem = "slow_cadence" ∨ q.problem = "asymmetric_gait" ∨
           q.problem = "short_stride" ∨ q.problem = "slow_velocity")) := by
      refine optCheck2_forall _ _ _ _ ?_
      intro v b q hq
      have hf := check_step_regularity_fields b v q hq
      have hn := check_step_regularity_problem b v q hq
      exact ⟨hf.2, by simp [hf.1, hn]⟩
    exact hblock p h
  rcases List.mem_append.mp hp2 with hp3 | h
  case inr =>
    have hblock : ∀ q ∈ optCheck1 check_stability m.stability_score,
        q.recommendations ≠ [] ∧
        (q.percentile.isSome = true ↔
          (q.problem = "slow_cadence" ∨ q.problem = "asymmetric_gait" ∨
           q.problem = "short_stride" ∨ q.problem = "slow_velocity")) := by
      refine optCheck1_forall _ _ _ ?_
      intro v q hq
      have hf := check_stability_fields v q hq
      have hn := check_stability_problem v q hq
      exact ⟨hf.2, by simp [hf.1, hn]⟩
    exact hblock p h
  rcases List.mem_append.mp hp3 with hp4 | h
  case inr =>
    have hblock : ∀ q ∈ optCheck2 (check_velocity cdf) m.velocity bl.velocity_estimate,
        q.recommendations ≠ [] ∧
        (q.percentile.isSome = true ↔
          (q.problem = "slow_cadence" ∨ q.problem = "asymmetric_gait" ∨
           q.problem = "short_stride" ∨ q.problem = "slow_velocity")) := by
      refine optCheck2_forall _ _ _ _ ?_
      intro v b q hq
      have hf := check_velocity_fields cdf v b q hq
      have hn := check_velocity_problem cdf v b q hq
      exact ⟨hf.2, by simp [hf.1, hn]⟩
    exact hblock p h
  rcases List.mem_append.mp hp4 with hp5 | h
  case inr =>
    have hblock : ∀ q ∈ optCheck2 (check_stride_length cdf) m.stride_length bl.stride_length_estimate,
        q.recommendations ≠ [] ∧
        (q.percentile.isSome = true ↔
          (q.problem = "slow_cadence" ∨ q.problem = "asymmetric_gait" ∨
           q.problem = "short_stride" ∨ q.problem = "slow_velocity")) := by
      refine optCheck2_forall _ _ _ _ ?_
      intro v b q hq
      have hf := check_stride_length_fields cdf v b q hq
      have hn := check_stride_length_problem cdf v b q hq
      exact ⟨hf.2, by simp [hf.1, hn]⟩
    exact hblock p h
  rcases List.mem_append.mp hp5 with h | h
  ·
    have hblock : ∀ q ∈ optCheck2 (check_cadence cdf) m.cadence bl.cadence,
        q.recommendations ≠ [] ∧
        (q.percentile.isSome = true ↔
          (q.problem = "slow_cadence" ∨ q.problem = "asymmetric_gait" ∨
           q.problem = "short_stride" ∨ q.problem = "slow_velocity")) := by
      refine optCheck2_forall _ _ _ _ ?_
      intro v b q hq
      have hf := check_cadence_fields cdf v b q hq
      have hn := check_cadence_problem cdf v b q hq
      exact ⟨hf.2, by simp [hf.1, hn]⟩
    exact hblock p h
  ·
    have hblock : ∀ q ∈ optCheck2 (check_symmetry cdf) m.gait_symmetry bl.gait_symmetry,
        q.recommendations ≠ [] ∧
        (q.percentile.isSome = true ↔
          (q.problem = "slow_cadence" ∨ q.problem = "asymmetric_gait" ∨
           q.problem = "short_stride" ∨ q.problem = "slow_velocity")) := by
      refine optCheck2_forall _ _ _ _ ?_
      intro v b q hq
      have hf := check_symmetry_fields cdf v b q hq
      have hn := check_symmetry_problem cdf v b q hq
      exact ⟨hf.2, by simp [hf.1, hn]⟩
    exact hblock p h

/-- Witness for C8's amended statement on the stability-only input. -/
theorem detect_problems_percentile_iff_witness :
    ∃ p ∈ detect_problems cdfLin metricsStabilityOnly baselinesNone,
      p.recommendations ≠ [] ∧ p.percentile.isSome = false := by
  obtain ⟨p, hpmem, hpnone⟩ :
      ∃ p, p ∈ detect_problems cdfLin metricsStabilityOnly baselinesNone ∧
        p.percentile = none := by
    have hmap := detect_problems_percentile_counterexample.1
    cases hd : detect_problems cdfLin metricsStabilityOnly baselinesNone with
    | nil => rw [hd] at hmap; simp at hmap
    | cons a t =>
      rw [hd] at hmap
      simp only [List.map_cons, List.cons.injEq] at hmap
      exact ⟨a, List.mem_cons_self a t, hmap.1⟩
  have h := detect_problems_percentile_iff cdfLin metricsStabilityOnly baselinesNone p hpmem
  exact ⟨p, hpmem, h.1, by rw [hpnone]; rfl⟩

/-! ### C4 — prioritization -/

theorem priorityLE_trans : ∀ a b c : ProblemRecord,
    priorityLE a b → priorityLE b c → priorityLE a c := by
  intro a b c hab hbc
  simp only [priorityLE, decide_eq_true_eq] at *
  omega

theorem priorityLE_total : ∀ a b : ProblemRecord, priorityLE a b || priorityLE b a := by
  intro a b
  simp only [priorityLE, Bool.or_eq_true, decide_eq_true_eq]
  omega

/-- Stability of `prioritize_problems`: for every key value, the findings
with that key appear in the output exactly as they appear in the input. -/
theorem prioritize_filter_key (l : List ProblemRecord) (k : ℕ × ℕ) :
    (prioritize_problems l).filter
        (fun p => (severity_order p.severity, category_order p.category) == k) =
      l.filter (fun p => (severity_order p.severity, category_order p.category) == k) := by
  set q := fun p : ProblemRecord =>
    (severity_order p.severity, category_order p.category) == k with hq
  have hpair : (l.filter q).Pairwise (fun a b => priorityLE a b) := by
    apply List.pairwise_of_forall_mem_list
    intro a ha b hb
    have ha' : (severity_order a.severity, category_order a.category) = k := by
      have := (List.mem_filter.mp ha).2
      rwa [hq, beq_iff_eq] at this
    have hb' : (severity_order b.severity, category_order b.category) = k := by
      have := (List.mem_filter.mp hb).2
      rwa [hq, beq_iff_eq] at this
    have hab := ha'.trans hb'.symm
    rw [Prod.mk.injEq] at hab
    simp only [priorityLE, decide_eq_true_eq]
    omega
  have hsub : List.Sublist (l.filter q) l := List.filter_sublist l
  have h1 : List.Sublist (l.filter q) (prioritize_problems l) :=
    List.sublist_mergeSort priorityLE_trans priorityLE_total hpair hsub
  have h2 : List.Sublist (l.filter q) ((prioritize_problems l).filter q) := by
    have h2' := h1.filter q
    rwa [List.filter_filter, (by funext a; rw [Bool.and_self] :
      (fun a => q a && q a) = q)] at h2'
  have hlen : ((prioritize_problems l).filter q).length = (l.filter q).length :=
    ((List.mergeSort_perm l priorityLE).filter q).length_eq
  exact (h2.eq_of_length hlen.symm).symm

/-- A moderate finding in `Gait Pattern`. -/
def recModerateGait : ProblemRecord :=
  { problem := "irregular_steps"
    severity := "moderate"
    category := "Gait Pattern"
    current_value := 0
    normal_range := ">0.75"
    percentile := none
    description := "moderate gait pattern finding"
    impact := ""
    clinical_significance := ""
    recommendations := ["Rhythm training exercises"] }

/-- A severe finding in `Balance & Symmetry`. -/
def recSevereBalance : ProblemRecord :=
  { problem := "asymmetric_gait"
    severity := "severe"
    category := "Balance & Symmetry"
    current_value := 0
    normal_range := ""
    percentile := some 3
    description := "severe balance finding"
    impact := ""
    clinical_significance := ""
    recommendations := ["Weight-shifting drills"] }

/-- A severe finding in `Speed & Rhythm`. -/
def recSevereSpeed : ProblemRecord :=
  { problem := "slow_cadence"
    severity := "severe"
    category := "Speed & Rhythm"
    current_value := 0
    normal_range := ""
    percentile := some 2
    description := "severe speed finding"
    impact := ""
    clinical_significance := ""
    recommendations := ["Quick stepping drills with cues"] }

/-- C4: `prioritize_problems` is a permutation of its input (record
contents untouched), sorted by the key (severity rank, then category
rank), stable (per-key sublists preserved verbatim), and on the concrete
input `[moderate/Gait Pattern, severe/Balance & Symmetry,
severe/Speed & Rhythm]` returns `[severe/Speed & Rhythm,
severe/Balance & Symmetry, moderate/Gait Pattern]`. -/
theorem prioritize_problems_spec :
    (∀ l : List ProblemRecord, (prioritize_problems l).Perm l) ∧
    (∀ l : List ProblemRecord,
      (prioritize_problems l).Pairwise (fun a b => priorityLE a b = true)) ∧
    (∀ (l : List ProblemRecord) (k : ℕ × ℕ),
      (prioritize_problems l).filter
          (fun p => (severity_order p.severity, category_order p.category) == k) =
        l.filter (fun p => (severity_order p.severity, category_order p.category) == k)) ∧
    prioritize_problems [recModerateGait, recSevereBalance, recSevereSpeed] =
      [recSevereSpeed, recSevereBalance, recModerateGait] := by
  refine ⟨fun l => List.mergeSort_perm l priorityLE, fun l => ?_, prioritize_filter_key, ?_⟩
  · exact List.sorted_mergeSort priorityLE_trans priorityLE_total l
  · have hanti : ∀ a b : ProblemRecord,
        a ∈ prioritize_problems [recModerateGait, recSevereBalance, recSevereSpeed] →
        b ∈ [recSevereSpeed, recSevereBalance, recModerateGait] →
        priorityLE a b → priorityLE b a → a = b := by
      intro a b ha hb
      have ha' : a ∈ [recModerateGait, recSevereBalance, recSevereSpeed] :=
        List.mem_mergeSort.mp ha
      fin_cases ha' <;> fin_cases hb <;> intro h1 h2 <;> revert h1 h2 <;> decide
    have hs1 := List.sorted_mergeSort priorityLE_trans priorityLE_total
      [recModerateGait, recSevereBalance, recSevereSpeed]
    have hs2 : List.Pairwise (fun a b => priorityLE a b = true)
        [recSevereSpeed, recSevereBalance, recModerateGait] := by decide
    have hperm : List.Perm
        (prioritize_problems [recModerateGait, recSevereBalance, recSevereSpeed])
        [recSevereSpeed, recSevereBalance, recModerateGait] :=
      (List.mergeSort_perm _ _).trans (by decide)
    exact List.Perm.eq_of_sorted hanti hs1 hs2 hperm

/-! ### C9 — metric invariants -/

theorem analyze_symmetry_bounds (steps : List ℕ) :
    0 ≤ analyze_symmetry steps ∧ analyze_symmetry steps ≤ 1 := by
  unfold analyze_symmetry
  dsimp only
  constructor <;> split_ifs <;>
    first
      | norm_num
      | exact le_max_left 0 _
      | exact max_le (by norm_num) (min_le_left 1 _)

theorem calculate_stability_bounds (sqrtQ : ℚ → ℚ) (gyro_data : SensorArrays) :
    0 ≤ calculate_stability sqrtQ gyro_data ∧ calculate_stability sqrtQ gyro_data ≤ 1 := by
  unfold calculate_stability
  split_ifs
  · exact ⟨by norm_num, by norm_num⟩
  · exact ⟨le_max_left 0 _, max_le (by norm_num) (min_le_left 1 _)⟩

theorem calculate_step_regularity_bounds (sqrtQ : ℚ → ℚ) (steps : List ℕ) :
    0 ≤ calculate_step_regularity sqrtQ steps ∧ calculate_step_regularity sqrtQ steps ≤ 1 := by
  unfold calculate_step_regularity
  split_ifs
  · exact ⟨by norm_num, by norm_num⟩
  · exact ⟨le_max_left 0 _, max_le (by norm_num) (min_le_left 1 _)⟩

theorem estimate_stride_length_bounds (sqrtQ : ℚ → ℚ) (accel_data : SensorArrays)
    (steps : List ℕ) (hs : ∀ x, 0 ≤ x → 0 ≤ sqrtQ x) :
    0 ≤ estimate_stride_length sqrtQ accel_data steps ∧
    estimate_stride_length sqrtQ accel_data steps ≤ 2 := by
  unfold estimate_stride_length
  split_ifs
  · exact ⟨le_refl 0, by norm_num⟩
  · exact ⟨le_refl 0, by norm_num⟩
  · have h0 : 0 ≤ sqrtQ (listVar accel_data.y) := hs _ (listVar_nonneg _)
    exact ⟨le_min (by linarith) (by norm_num), min_le_right _ 2⟩

theorem calculate_vertical_oscillation_nonneg (sqrtQ : ℚ → ℚ) (accel_data : SensorArrays)
    (hs : ∀ x, 0 ≤ x → 0 ≤ sqrtQ x) :
    0 ≤ calculate_vertical_oscillation sqrtQ accel_data := by
  unfold calculate_vertical_oscillation
  split_ifs
  · exact le_refl 0
  · exact mul_nonneg (hs _ (listVar_nonneg _)) (by norm_num)

/-- C9: whatever the inputs (and for any square-root model that is
non-negative on non-negative arguments, as `np.sqrt` is), every metrics
field of an `analyze` result is well-defined and in range:
`cadence ≥ 0`, `stride_length ∈ [0, 2]`, `gait_symmetry`,
`stability_score`, `step_regularity ∈ [0, 1]`,
`vertical_oscillation ≥ 0`, and `step_count ≥ 0`. -/
theorem analyze_metrics_invariants (sqrtQ : ℚ → ℚ)
    (bf : ℚ → ℚ → List ℚ → Option (List ℚ)) (st : GaitState)
    (accelerometer gyroscope : List Sample) (user_id session_id : String)
    (hs : ∀ x, 0 ≤ x → 0 ≤ sqrtQ x) :
    (0 : ℤ) ≤ ((analyze sqrtQ bf st accelerometer gyroscope user_id session_id).2).metrics.step_count ∧
    0 ≤ ((analyze sqrtQ bf st accelerometer gyroscope user_id session_id).2).metrics.cadence ∧
    0 ≤ ((analyze sqrtQ bf st accelerometer gyroscope user_id session_id).2).metrics.stride_length ∧
    ((analyze sqrtQ bf st accelerometer gyroscope user_id session_id).2).metrics.stride_length ≤ 2 ∧
    0 ≤ ((analyze sqrtQ bf st accelerometer gyroscope user_id session_id).2).metrics.gait_symmetry ∧
    ((analyze sqrtQ bf st accelerometer gyroscope user_id session_id).2).metrics.gait_symmetry ≤ 1 ∧
    0 ≤ ((analyze sqrtQ bf st accelerometer gyroscope user_id session_id).2).metrics.stability_score ∧
    ((analyze sqrtQ bf st accelerometer gyroscope user_id session_id).2).metrics.stability_score ≤ 1 ∧
    0 ≤ ((analyze sqrtQ bf st accelerometer gyroscope user_id session_id).2).metrics.step_regularity ∧
    ((analyze sqrtQ bf st accelerometer gyroscope user_id session_id).2).metrics.step_regularity ≤ 1 ∧
    0 ≤ ((analyze sqrtQ bf st accelerometer gyroscope user_id session_id).2).metrics.vertical_oscillation := by
  unfold analyze
  dsimp only
  refine ⟨Int.natCast_nonneg _, ?_, ?_, ?_, ?_, ?_, ?_, ?_, ?_, ?_, ?_⟩
  · apply pyRound_nonneg
    split_ifs with h <;>
      first
        | exact le_refl (0 : ℚ)
        | exact mul_nonneg (div_nonneg (Nat.cast_nonneg _) (le_of_lt h)) (by norm_num)
  · exact pyRound_nonneg _ _ (estimate_stride_length_bounds sqrtQ _ _ hs).1
  · exact pyRound_le _ _ 2 (estimate_stride_length_bounds sqrtQ _ _ hs).2
  · exact pyRound_nonneg _ _ (analyze_symmetry_bounds _).1
  · exact pyRound_le _ _ 1 (analyze_symmetry_bounds _).2
  · exact pyRound_nonneg _ _ (calculate_stability_bounds sqrtQ _).1
  · exact pyRound_le _ _ 1 (calculate_stability_bounds sqrtQ _).2
  · exact pyRound_nonneg _ _ (calculate_step_regularity_bounds sqrtQ _).1
  · exact pyRound_le _ _ 1 (calculate_step_regularity_bounds sqrtQ _).2
  · exact pyRound_nonneg _ _ (calculate_vertical_oscillation_nonneg sqrtQ _ hs)

/-- The constant-zero square-root model (trivially non-negative). -/
def sqrtQ0 (_x : ℚ) : ℚ := 0

/-- The filter kernel that always reports failure, exercising the
degrade-to-raw fallback of `_bandpass_filter`. -/
def bfNone (low high : ℚ) (data : List ℚ) : Option (List ℚ) :=
  let _ := low
  let _ := high
  let _ := data
  none

/-- Witness for C9 at concrete degenerate inputs (empty streams). -/
theorem analyze_metrics_invariants_witness :
    0 ≤ ((analyze sqrtQ0 bfNone gaitProcessorInit [] [] "u" "s").2).metrics.cadence ∧
    ((analyze sqrtQ0 bfNone gaitProcessorInit [] [] "u" "s").2).metrics.stride_length ≤ 2 ∧
    ((analyze sqrtQ0 bfNone gaitProcessorInit [] [] "u" "s").2).metrics.gait_symmetry ≤ 1 := by
  have h := analyze_metrics_invariants sqrtQ0 bfNone gaitProcessorInit [] [] "u" "s"
    (fun _ _ => le_refl 0)
  exact ⟨h.2.1, h.2.2.2.1, h.2.2.2.2.2.1⟩

/-! ### C10 — step spacing and regularity safety -/

theorem farApart_comm (dist a b : ℕ) : farApart dist a b = farApart dist b a := by
  unfold farApart
  exact decide_eq_decide.mpr or_comm

/-- The greedy distance filter keeps a set of positions that are pairwise
at least `dist` apart, with no duplicates. -/
theorem keepFar_good (dist : ℕ) (hd : 0 < dist) :
    ∀ (pri kept : List ℕ),
      (∀ a ∈ kept, ∀ b ∈ kept, a = b ∨ farApart dist a b = true) → kept.Nodup →
      (∀ a ∈ keepFar dist kept pri, ∀ b ∈ keepFar dist kept pri,
        a = b ∨ farApart dist a b = true) ∧ (keepFar dist kept pri).Nodup := by
  intro pri
  induction pri with
  | nil =>
    intro kept h hn
    exact ⟨h, hn⟩
  | cons j rest ih =>
    intro kept h hn
    simp only [keepFar]
    split_ifs with hall
    · apply ih
      · intro a ha b hb
        rcases List.mem_cons.mp ha with ha0 | ha' <;> rcases List.mem_cons.mp hb with hb0 | hb'
        · exact Or.inl (ha0.trans hb0.symm)
        · rw [ha0]
          exact Or.inr (List.all_eq_true.mp hall b hb')
        · rw [hb0]
          refine Or.inr ?_
          rw [farApart_comm]
          exact List.all_eq_true.mp hall a ha'
        · exact h a ha' b hb'
      · refine List.nodup_cons.mpr ⟨?_, hn⟩
        intro hj
        have := List.all_eq_true.mp hall j hj
        unfold farApart at this
        rw [decide_eq_true_eq] at this
        omega
    · exact ih kept h hn

/-- The distance-selected peak list is strictly increasing with
consecutive (indeed pairwise) gaps of at least `dist`. -/
theorem select_by_peak_distance_pairwise (xs : List ℚ) (peaks : List ℕ) (dist : ℕ)
    (hd : 0 < dist) :
    List.Pairwise (fun a b => a + dist ≤ b) (select_by_peak_distance xs peaks dist) := by
  unfold select_by_peak_distance
  dsimp only
  have hgood := keepFar_good dist hd
    ((peaks.insertionSort (fun a b => xs.getD a 0 ≤ xs.getD b 0)).reverse) []
    (by intro a ha; cases ha) (List.nodup_nil)
  set kept := keepFar dist []
    ((peaks.insertionSort (fun a b => xs.getD a 0 ≤ xs.getD b 0)).reverse) with hkept
  have hsorted : (kept.insertionSort (fun a b => a ≤ b)).Pairwise (fun a b : ℕ => a ≤ b) :=
    List.sorted_insertionSort (fun a b => a ≤ b) kept
  have hnd : (kept.insertionSort (fun a b => a ≤ b)).Nodup :=
    ((List.perm_insertionSort (fun a b => a ≤ b) kept).nodup_iff).mpr hgood.2
  have hpair := hsorted.and hnd
  refine hpair.imp_of_mem ?_
  intro a b ha hb hab
  have ha' : a ∈ kept := (List.mem_insertionSort (fun a b => a ≤ b)).mp ha
  have hb' : b ∈ kept := (List.mem_insertionSort (fun a b => a ≤ b)).mp hb
  rcases hgood.1 a ha' b hb' with rfl | hfar
  · exact absurd rfl hab.2
  · unfold farApart at hfar
    rw [decide_eq_true_eq] at hfar
    rcases hfar with h1 | h1
    · exact h1
    · exact absurd (le_trans (Nat.le_add_right b dist) (le_trans h1 hab.1)) (by omega)

theorem find_peaks_pairwise (xs : List ℚ) (prom : ℚ) :
    List.Pairwise (fun a b => a + 10 ≤ b) (find_peaks xs 10 prom) := by
  unfold find_peaks
  exact (select_by_peak_distance_pairwise xs (localMaxima xs) 10 (by norm_num)).sublist
    (List.filter_sublist _)

theorem listDiff_ge_of_pairwise :
    ∀ steps : List ℕ, List.Pairwise (fun a b => a + 10 ≤ b) steps →
      ∀ d ∈ listDiff (steps.map (fun n : ℕ => (n : ℚ))), (10 : ℚ) ≤ d := by
  intro steps
  induction steps with
  | nil => intro _ d hd; cases hd
  | cons a t ih =>
    intro hp d hd
    cases t with
    | nil => cases hd
    | cons b r =>
      simp only [List.map_cons, listDiff] at hd
      rcases List.mem_cons.mp hd with rfl | hd'
      · have hab : a + 10 ≤ b := (List.pairwise_cons.mp hp).1 b (List.mem_cons_self b r)
        have : ((a : ℚ)) + 10 ≤ (b : ℚ) := by exact_mod_cast hab
        linarith
      · exact ih (List.pairwise_cons.mp hp).2 d (by simpa [listDiff] using hd')

/-- C10: the step indices produced by `_detect_steps` are strictly
increasing with pairwise gaps of at least 10 samples (the `distance=10`
argument of `find_peaks`), so with at least 3 steps the mean inter-step
interval that `_calculate_step_regularity` divides by is strictly
positive. -/
theorem detect_steps_spacing (bf : ℚ → ℚ → List ℚ → Option (List ℚ))
    (sampling_rate : ℚ) (magnitude : List ℚ) :
    List.Pairwise (fun a b => a + 10 ≤ b) (detect_steps bf sampling_rate magnitude) ∧
    (3 ≤ (detect_steps bf sampling_rate magnitude).length →
      0 < listMean (listDiff
        ((detect_steps bf sampling_rate magnitude).map (fun n : ℕ => (n : ℚ))))) := by
  have hpw : List.Pairwise (fun a b => a + 10 ≤ b)
      (detect_steps bf sampling_rate magnitude) := by
    unfold detect_steps
    dsimp only
    split_ifs
    · exact List.Pairwise.nil
    · exact find_peaks_pairwise _ _
    · exact find_peaks_pairwise _ _
  refine ⟨hpw, fun hlen => ?_⟩
  apply listMean_pos
  · intro hnil
    have hlen2 := listDiff_length ((detect_steps bf sampling_rate magnitude).map (fun n : ℕ => (n : ℚ)))
    rw [hnil] at hlen2
    rw [List.length_map] at hlen2
    simp only [List.length_nil] at hlen2
    omega
  · exact listDiff_ge_of_pairwise _ hpw

/-! ### C6 — instance state and call interference -/

/-- Amended C6: `analyze` updates `sampling_rate` (keeping the old value
only when the estimate is 0) and appends to the bounded history; the
result never depends on the history, and whenever the input's estimated
sampling rate is positive the result is independent of the entire prior
instance state (so identical calls then agree regardless of interleaved
calls). -/
theorem analyze_state_amended (sqrtQ : ℚ → ℚ)
    (bf : ℚ → ℚ → List ℚ → Option (List ℚ)) (st1 st2 : GaitState)
    (accelerometer gyroscope : List Sample) (user_id session_id : String) :
    ((analyze sqrtQ bf st1 accelerometer gyroscope user_id session_id).1).sampling_rate =
      (if calculate_sampling_rate accelerometer > 0 then calculate_sampling_rate accelerometer
       else st1.sampling_rate) ∧
    ((analyze sqrtQ bf st1 accelerometer gyroscope user_id session_id).1).history =
      add_to_history st1.history
        (analyze sqrtQ bf st1 accelerometer gyroscope user_id session_id).2 ∧
    (st1.sampling_rate = st2.sampling_rate →
      (analyze sqrtQ bf st1 accelerometer gyroscope user_id session_id).2 =
      (analyze sqrtQ bf st2 accelerometer gyroscope user_id session_id).2) ∧
    (0 < calculate_sampling_rate accelerometer →
      (analyze sqrtQ bf st1 accelerometer gyroscope user_id session_id).2 =
      (analyze sqrtQ bf st2 accelerometer gyroscope user_id session_id).2) := by
  refine ⟨rfl, rfl, ?_, ?_⟩
  · intro h
    simp only [analyze, h]
  · intro h
    simp only [analyze, if_pos h]

/-- A 35-sample magnitude signal with isolated unit spikes at indices 5,
17 and 29. -/
def stepMag : List ℚ :=
  [0,0,0,0,0,1,0,0,0,0,0,0,0,0,0,0,0,1,0,0,0,0,0,0,0,0,0,0,0,1,0,0,0,0,0]

set_option maxRecDepth 8000 in
/-- Witness for C10: on the three-spike signal (with the fallback filter)
`_detect_steps` finds the steps `[5, 17, 29]`, 3 steps whose mean
inter-step interval is positive. -/
theorem detect_steps_spacing_witness :
    detect_steps bfNone 50 stepMag = [5, 17, 29] ∧
    0 < listMean (listDiff
      ((detect_steps bfNone 50 stepMag).map (fun n : ℕ => (n : ℚ)))) := by
  have hbp : bandpass_filter bfNone 50 stepMag = stepMag := by
    unfold bandpass_filter
    rw [if_neg (by decide : ¬ stepMag.length < 10)]
    rfl
  have hsel : select_by_peak_distance stepMag (localMaxima stepMag) 10 = [5, 17, 29] := by
    decide
  have hpv5 : prominence stepMag 5 = 1 := by
    have h0 : stepMag.getD 5 0 = 1 := by decide
    have h1 : promSide stepMag 1 ((5 : ℕ) : ℤ) (-1) 1 (stepMag.length + 1) = 0 := by decide
    have h2 : promSide stepMag 1 ((5 : ℕ) : ℤ) 1 1 (stepMag.length + 1) = 0 := by decide
    simp only [prominence, h0, h1, h2]
    norm_num
  have hpv17 : prominence stepMag 17 = 1 := by
    have h0 : stepMag.getD 17 0 = 1 := by decide
    have h1 : promSide stepMag 1 ((17 : ℕ) : ℤ) (-1) 1 (stepMag.length + 1) = 0 := by decide
    have h2 : promSide stepMag 1 ((17 : ℕ) : ℤ) 1 1 (stepMag.length + 1) = 0 := by decide
    simp only [prominence, h0, h1, h2]
    norm_num
  have hpv29 : prominence stepMag 29 = 1 := by
    have h0 : stepMag.getD 29 0 = 1 := by decide
    have h1 : promSide stepMag 1 ((29 : ℕ) : ℤ) (-1) 1 (stepMag.length + 1) = 0 := by decide
    have h2 : promSide stepMag 1 ((29 : ℕ) : ℤ) 1 1 (stepMag.length + 1) = 0 := by decide
    simp only [prominence, h0, h1, h2]
    norm_num
  have hfp : find_peaks stepMag 10 (1/10) = [5, 17, 29] := by
    simp only [find_peaks, hsel]
    simp only [List.filter_cons, List.filter_nil, hpv5, hpv17, hpv29]
    norm_num
  have hsteps : detect_steps bfNone 50 stepMag = [5, 17, 29] := by
    simp only [detect_steps]
    rw [if_neg (by decide : ¬ stepMag.length < 2)]
    rw [hbp, hfp]
    rfl
  refine ⟨hsteps, (detect_steps_spacing bfNone 50 stepMag).2 ?_⟩
  rw [hsteps]
  decide

/-- Ten flat samples at 250 ms spacing (estimated rate 4 Hz). -/
def accelSlow : List Sample :=
  [{ x := 0, y := 0, z := 0, timestamp := some 0 },
   { x := 0, y := 0, z := 0, timestamp := some 250 },
   { x := 0, y := 0, z := 0, timestamp := some 500 },
   { x := 0, y := 0, z := 0, timestamp := some 750 },
   { x := 0, y := 0, z := 0, timestamp := some 1000 },
   { x := 0, y := 0, z := 0, timestamp := some 1250 },
   { x := 0, y := 0, z := 0, timestamp := some 1500 },
   { x := 0, y := 0, z := 0, timestamp := some 1750 },
   { x := 0, y := 0, z := 0, timestamp := some 2000 },
   { x := 0, y := 0, z := 0, timestamp := some 2250 }]

/-- Counterexample for C6: `analyze` mutates instance state other than
the bounded history buffer — analyzing the 250 ms-spaced stream stores the
estimated 4 Hz rate in `sampling_rate`, replacing the initial 50.  The
stored rate is computed from the timestamps alone, so it does not depend
on the numeric kernels; `sqrtQ0`/`bfNone` merely close the term. -/
theorem analyze_mutates_sampling_rate_counterexample :
    ((analyze sqrtQ0 bfNone gaitProcessorInit accelSlow [] "u" "s2").1).sampling_rate = 4 ∧
    gaitProcessorInit.sampling_rate = 50 ∧
    ((analyze sqrtQ0 bfNone gaitProcessorInit accelSlow [] "u" "s2").1).sampling_rate ≠
      gaitProcessorInit.sampling_rate := by
  have hrate4 : calculate_sampling_rate accelSlow = 4 := by
    norm_num [calculate_sampling_rate, accelSlow, listDiff, listMean, List.take]
  have hsr : ((analyze sqrtQ0 bfNone gaitProcessorInit accelSlow [] "u" "s2").1).sampling_rate
      = 4 := by
    simp only [analyze]
    rw [hrate4]
    norm_num
  refine ⟨hsr, rfl, ?_⟩
  rw [hsr]
  norm_num [gaitProcessorInit]

/-- Witness for the amended C6: with a positive estimated rate (the 20 ms
stream), the result is the same from two different instance states. -/
theorem analyze_state_amended_witness :
    (analyze sqrtQ0 bfNone gaitProcessorInit tenSamples [] "u" "s").2 =
    (analyze sqrtQ0 bfNone { sampling_rate := 100, history := [] } tenSamples [] "u" "s").2 := by
  apply (analyze_state_amended sqrtQ0 bfNone gaitProcessorInit
    { sampling_rate := 100, history := [] } tenSamples [] "u" "s").2.2.2
  norm_num [calculate_sampling_rate, tenSamples, listDiff, listMean, List.take]
